import Mathlib

/-!
Verification of the trakt-graph activity-aggregation and calendar-grid
layout engine against its specification.

Modelling conventions, used throughout this file:

* A calendar timestamp is modelled at day resolution by its epoch day
  number (days since 1970-01-01) as an `Int`.  The program runs with the
  process time zone fixed to UTC (the GitHub Actions environment the
  repository ships with), so local calendar days and UTC calendar days
  coincide; `Date.prototype.getFullYear`, `getUTCDay`, `getMonth`,
  `getDate` are all functions of the epoch day.  Time of day never
  affects any computation modelled here: the only place sub-day
  precision enters the source is `Math.floor((entry.date - startDate) /
  dayMs)` with `startDate` a UTC midnight, and `⌊(d + τ) - s⌋ = d - s`
  for any time-of-day fraction `0 ≤ τ < 1`.

* JavaScript `Math.floor(a / b)` on an exact integer-millisecond ratio
  is floor division; Lean's `Int` division `/` (`Int.ediv`) is floor
  division for positive divisors, so it models both `Math.floor(x / 7)`
  and the day-difference computations exactly.  Every `%` the source
  applies is applied to non-negative operands, where JavaScript `%`
  agrees with `Int.emod`.

* JavaScript date strings `YYYY-MM-DD` (as produced by
  `getLocalDateString`) compare lexicographically exactly as their
  epoch days compare numerically for all four-digit years, which is the
  only range a `Date` on this data can produce; the embedding therefore
  identifies a day string with its epoch day and string sorting with
  integer sorting.
-/

namespace TraktGraph

/-- Number of days in Gregorian years `1, …, y` relative to a fixed
origin: `365*y` plus one day for every leap year up to `y`.  This is
the standard closed form whose differences give year lengths; it is the
basis of the epoch-day model of the JavaScript `Date` object. -/
def gregCount (y : Int) : Int := 365*y + y/4 - y/100 + y/400

/-- Epoch day (days since 1970-01-01) of January 1 of year `y`,
proleptic Gregorian.  `gregCount 1969 = 719162` normalises the origin
so that `jan1 1970 = 0`. -/
def jan1 (y : Int) : Int := gregCount (y - 1) - 719162

/-- Epoch day of December 31 of year `y`: the day before January 1 of
`y + 1`. -/
def dec31 (y : Int) : Int := jan1 (y + 1) - 1

/-- Year-of-era lookup used by `yearOfDay`: given `rem`, a day offset
inside a 400-year era (`0 ≤ rem < 146097`), return the era-relative
year `t ∈ [0, 399]` such that January 1 of era-year `t` is on or before
`rem` and January 1 of era-year `t + 1` is after it. -/
def yoeOf (rem : Int) : Int :=
  let t := if rem / 365 ≤ 399 then rem / 365 else 399
  if 365*t + t/4 - t/100 ≤ rem then t else t - 1

/-- The Gregorian calendar year containing epoch day `d`; this models
`Date.prototype.getFullYear()` under the UTC process time zone. -/
def yearOfDay (d : Int) : Int :=
  let n := d + 719162
  let era := n / 146097
  let rem := n % 146097
  400 * era + yoeOf rem + 1

/-- Gregorian leap-year test. -/
def isLeap (y : Int) : Bool := (y % 4 == 0 && y % 100 != 0) || y % 400 == 0

/-- Month lengths of a year, January first. -/
def monthLengths (leap : Bool) : List Int :=
  [31, if leap then 29 else 28, 31, 30, 31, 30, 31, 31, 30, 31, 30, 31]

/-- Walk the month-length table to convert a day-of-year offset
(`0`-based) into a (month, day-of-month) pair (both `1`-based). -/
def monthDayOfDoy : List Int → Int → Int → Int × Int
  | [], doy, m => (m, doy + 1)
  | len :: rest, doy, m =>
      if doy < len then (m, doy + 1) else monthDayOfDoy rest (doy - len) (m + 1)

/-- Calendar triple (year, month, day-of-month) of an epoch day; models
`getFullYear` / `getMonth + 1` / `getDate` under UTC. -/
def civilOf (day : Int) : Int × Int × Int :=
  let y := yearOfDay day
  let md := monthDayOfDoy (monthLengths (isLeap y)) (day - jan1 y) 1
  (y, md.1, md.2)

/-- Epoch day of the calendar date `y-m-d` (month and day `1`-based). -/
def daysFromCivil (y m d : Int) : Int :=
  jan1 y + ((monthLengths (isLeap y)).take (m - 1).toNat).sum + (d - 1)

/-- Model of `String(n).padStart(2, "0")`. -/
def pad2 (n : Int) : String :=
  let s := toString n
  if s.length < 2 then "0" ++ s else s

/-- Model of `getLocalDateString` (src stats.js): the `YYYY-MM-DD`
string of an epoch day, year unpadded, month and day zero-padded to two
digits. -/
def dateString (day : Int) : String :=
  let c := civilOf day
  toString c.1 ++ "-" ++ pad2 c.2.1 ++ "-" ++ pad2 c.2.2

/-- Day of week of an epoch day, `0 = Sunday`; models
`Date.prototype.getUTCDay()` (1970-01-01 was a Thursday, code 4). -/
def dayOfWeek (d : Int) : Int := (d + 4) % 7

/-- The source compares the `weekStart` option against the string
`"monday"`; anything else (including the default `"sunday"`) selects
Sunday-start layout. -/
def isMonday (weekStart : String) : Bool := weekStart == "monday"

/-- Grid start date computed in `generateSvg` (fetcher.js lines
428-435): January 1 of the display year, shifted back to the configured
week-start boundary when January 1 is not already on it. -/
def startDateOf (year : Int) (weekStart : String) : Int :=
  let startDay := dayOfWeek (jan1 year)
  let dayShift := if isMonday weekStart then (startDay + 6) % 7 else startDay
  if 0 < dayShift then jan1 year - dayShift else jan1 year

/-- `totalDays` of `generateSvg` (fetcher.js line 437): inclusive day
span from the shifted start date through December 31.  The millisecond
difference is an exact multiple of a day, so `Math.ceil` is the
identity on it. -/
def totalDaysOf (year : Int) (weekStart : String) : Int :=
  dec31 year - startDateOf year weekStart + 1

/-- `totalWeeks = Math.ceil(totalDays / 7)` (fetcher.js line 438). -/
def totalWeeksOf (year : Int) (weekStart : String) : Int :=
  (totalDaysOf year weekStart + 6) / 7

/-- Grid row index of an entry day: `getUTCDay()`, remapped by
`(d + 6) % 7` when weeks start on Monday (fetcher.js line 447, also
line 1004 in `generateMultiYearSvg` and line 202 of the standalone
script). -/
def dayIndexOf (weekStart : String) (d : Int) : Int :=
  if isMonday weekStart then (dayOfWeek d + 6) % 7 else dayOfWeek d

/-- Grid column index of an entry day (fetcher.js lines 445-446):
`Math.floor(daysSinceStart / 7)`. -/
def weekIndexOf (year : Int) (weekStart : String) (d : Int) : Int :=
  (d - startDateOf year weekStart) / 7

/-- A normalized watch entry, the shape produced by
`processTraktHistory` (fetcher.js lines 172-190) and consumed by the
statistics and rendering functions.  `day` is the epoch day of the
watch timestamp (see the module conventions). -/
structure Entry where
  day : Int
  title : String
  episodeTitle : Option String := none
  episode : Option String := none
  year : Int := 0
  type : String := ("movie")
  rating : Option Int := none
deriving Repr, DecidableEq

/-- Result shape of `calculateStreak` (stats.js).  The source stores
the boundary dates as `YYYY-MM-DD` strings; the embedding stores their
epoch days (see the module conventions on date strings). -/
structure StreakResult where
  length : Int
  startDate : Option Int
  endDate : Option Int
deriving Repr, DecidableEq

/-- Insert a day into a strictly increasing list, keeping it strictly
increasing (duplicates collapse). -/
def insertDay (x : Int) : List Int → List Int
  | [] => [x]
  | y :: ys => if x < y then x :: y :: ys else if x = y then y :: ys else y :: insertDay x ys

/-- The strictly increasing enumeration of the set of values of `l`.
This is the embedding of `[...new Set(l)].sort()` in `calculateStreak`
(stats.js lines 26-28): deduplicate, then sort ascending (string order
on `YYYY-MM-DD` equals numeric order on epoch days). -/
def sortedUnique (l : List Int) : List Int := l.foldr insertDay []

/-- The scan loop of `calculateStreak` (stats.js lines 40-61).
Arguments mirror the loop state: the remaining dates, `prevDate`,
`currentStart`, `currentStreak`, `maxStreak`, `maxStart`, `maxEnd`.
The day difference of consecutive unique sorted dates is their exact
epoch-day difference (the source rounds a ratio that is already an
integer). -/
def scanStreak : List Int → Int → Int → Int → Int → Int → Int → Int × Int × Int
  | [], _prev, _curStart, _cur, maxS, maxStart, maxEnd => (maxS, maxStart, maxEnd)
  | x :: xs, prev, curStart, cur, maxS, maxStart, maxEnd =>
    if x - prev = 1 then
      if cur + 1 > maxS then scanStreak xs x curStart (cur + 1) (cur + 1) curStart x
      else scanStreak xs x curStart (cur + 1) maxS maxStart maxEnd
    else scanStreak xs x x 1 maxS maxStart maxEnd

/-- Model of `calculateStreak` (stats.js lines 20-68): deduplicate the
entry days, sort ascending, scan for the longest run of consecutive
days. -/
def calculateStreak (entries : List Entry) : StreakResult :=
  match sortedUnique (entries.map Entry.day) with
  | [] => { length := 0, startDate := none, endDate := none }
  | d :: rest =>
    let r := scanStreak rest d d 1 1 d d
    { length := r.1, startDate := some r.2.1, endDate := some r.2.2 }

/-- Model of `calculateDaysActive` (stats.js lines 75-83): the number
of distinct entry days. -/
def calculateDaysActive (entries : List Entry) : Int :=
  ((sortedUnique (entries.map Entry.day)).length : Int)

/-- Specification predicate: `[a, b]` is a run of consecutive active
days of `S` — every day between `a` and `b` inclusive occurs in `S`. -/
def isRun (S : List Int) (a b : Int) : Prop :=
  a ≤ b ∧ ∀ d : Int, a ≤ d → d ≤ b → d ∈ S

/-- Replacement applied per character by `escapeXml` (fetcher.js lines
315-326): each of the five XML-reserved characters becomes its named
entity, everything else passes through.  `Char.ofNat 39` is the
apostrophe and `Char.ofNat 34` the double quote. -/
def escapeChar (c : Char) : List Char :=
  if c = ('<') then ("&lt;").data
  else if c = ('>') then ("&gt;").data
  else if c = ('&') then ("&amp;").data
  else if c = Char.ofNat 39 then ("&apos;").data
  else if c = Char.ofNat 34 then ("&quot;").data
  else [c]

/-- Model of `escapeXml` (fetcher.js): `String.replace` with a
single-character global pattern is exactly a per-character concatMap.
The standalone script differs only in emitting a numeric entity for the
apostrophe. -/
def escapeXml : List Char → List Char
  | [] => []
  | c :: rest => escapeChar c ++ escapeXml rest

/-- The five escape entities `escapeXml` can introduce. -/
def entityList : List (List Char) :=
  [("&lt;").data, ("&gt;").data, ("&amp;").data, ("&apos;").data, ("&quot;").data]

/-- Checks that every ampersand in the list is the first character of
one of the escape entities. -/
def ampOkB : List Char → Bool
  | [] => true
  | c :: rest =>
    (if c = ('&') then entityList.any (fun e => e.isPrefixOf (c :: rest)) else true) && ampOkB rest

/-- Checks that no raw `<`, `>`, apostrophe, or double quote occurs. -/
def noRawB (l : List Char) : Bool :=
  l.all (fun c => (c != ('<')) && (c != ('>')) && (c != Char.ofNat 39) && (c != Char.ofNat 34))

/-- Nested `episode` object of a raw Trakt history record. -/
structure RawEpisode where
  season : Int
  number : Int
  title : String
  rating : Option Int := none
deriving Repr, DecidableEq

/-- Nested `show` object of a raw Trakt history record. -/
structure RawShow where
  title : String
  year : Int
deriving Repr, DecidableEq

/-- Nested `movie` object of a raw Trakt history record. -/
structure RawMovie where
  title : String
  year : Int
  rating : Option Int := none
deriving Repr, DecidableEq

/-- A raw history record as consumed by `processTraktHistory`.
`watched_at` is the parsed timestamp's epoch day; `none` models an
unparseable date (an `Invalid Date`, whose `getFullYear()` is `NaN`;
`NaN !== y` holds for every `y` including `NaN` itself, so such records
never pass the year filter).  `showInfo` embeds the source field
`show`, which is a reserved word in Lean.  The nested objects are
`Option`s because arbitrary JSON need not carry them; accessing a field
of a missing one is the one way `processTraktHistory` can throw. -/
structure RawRecord where
  watched_at : Option Int
  type : String
  episode : Option RawEpisode := none
  showInfo : Option RawShow := none
  movie : Option RawMovie := none
deriving Repr, DecidableEq

/-- Result shape of `processTraktHistory` (fetcher.js lines 202-208).
`year` is `none` when the selected year is the `NaN` bucket. -/
structure ProcessResult where
  entries : List Entry
  year : Option Int
  totalItemsWatched : Int
  moviesCount : Int
  episodesCount : Int
deriving Repr, DecidableEq

/-- One step of building the `yearCount` map (fetcher.js lines
142-146): a JavaScript `Map` keyed by year (`NaN` is a valid key equal
to itself under SameValueZero), insertion-ordered. -/
def bumpYear : List (Option Int × Int) → Option Int → List (Option Int × Int)
  | [], k => [(k, 1)]
  | (k0, c) :: rest, k => if k0 = k then (k0, c + 1) :: rest else (k0, c) :: bumpYear rest k

/-- The `yearCount` map of `processTraktHistory`: local calendar year
of each record's watch timestamp, with multiplicity. -/
def yearCountOf (history : List RawRecord) : List (Option Int × Int) :=
  history.foldl (fun m r => bumpYear m (r.watched_at.map yearOfDay)) []

/-- `yearCount.get(k)`: `none` models JavaScript `undefined`. -/
def lookupCount (m : List (Option Int × Int)) (k : Option Int) : Option Int :=
  (m.find? (fun p => p.1 == k)).map (fun p => p.2)

/-- The year-selection reduce (fetcher.js lines 149-151):
`keys.reduce((a, b) => count(a) > count(b) ? a : b, currentYear)`.  A
comparison against `undefined` is false, so a start value that is not a
key loses to the first key. -/
def autoYear (m : List (Option Int × Int)) (currentYear : Int) : Option Int :=
  (m.map (fun p => p.1)).foldl (fun a b =>
    match lookupCount m a, lookupCount m b with
    | some ca, some cb => if ca > cb then a else b
    | _, _ => b) (some currentYear)

/-- `selectedYear = targetYear || autoDetect` — note `||` treats a
target year of `0` as absent (JavaScript falsiness). -/
def selectedYearOf (history : List RawRecord) (targetYear : Option Int)
    (currentYear : Int) : Option Int :=
  match targetYear with
  | some t => if t = 0 then autoYear (yearCountOf history) currentYear else some t
  | none => autoYear (yearCountOf history) currentYear

/-- `S..E..` episode code with zero-padded season and episode numbers
(fetcher.js line 171). -/
def episodeCode (season number : Int) : String :=
  "S" ++ pad2 season ++ "E" ++ pad2 number

/-- JavaScript `x || null` on an optional numeric rating: `0` is falsy
and becomes `null`. -/
def ratingOrNull (r : Option Int) : Option Int :=
  r.bind (fun x => if x = 0 then none else some x)

/-- The body of the `history.forEach` entry loop of
`processTraktHistory` (fetcher.js lines 161-198) for one record,
relative to the selected year.  `Except.error` models the `TypeError`
thrown when a record announces a kind whose nested object is missing
(`episode.season` on `undefined`). -/
def entryOfRecord (sel : Option Int) (r : RawRecord) : Except Unit (Option Entry) :=
  match r.watched_at with
  | none => Except.ok none
  | some d =>
    if some (yearOfDay d) = sel then
      if r.type = ("episode") then
        match r.episode, r.showInfo with
        | some ep, some sh =>
          Except.ok (some
            { day := d, title := sh.title,
              episodeTitle := some ep.title,
              episode := some (episodeCode ep.season ep.number),
              year := sh.year, type := ("episode"),
              rating := ratingOrNull ep.rating })
        | _, _ => Except.error ()
      else if r.type = ("movie") then
        match r.movie with
        | some mv =>
          Except.ok (some
            { day := d, title := mv.title, year := mv.year,
              type := ("movie"), rating := ratingOrNull mv.rating })
        | none => Except.error ()
      else Except.ok none
    else Except.ok none

/-- The entry loop over the whole history, propagating a thrown error
as `forEach` does. -/
def processEntries (sel : Option Int) : List RawRecord → Except Unit (List Entry)
  | [] => Except.ok []
  | r :: rest =>
    match entryOfRecord sel r with
    | Except.error e => Except.error e
    | Except.ok none => processEntries sel rest
    | Except.ok (some en) => (processEntries sel rest).map (fun l => en :: l)

/-- Model of `processTraktHistory` (fetcher.js lines 140-209).
`currentYear` is the value of `new Date().getFullYear()` used as the
reduce start value. -/
def processTraktHistory (history : List RawRecord) (targetYear : Option Int)
    (currentYear : Int) : Except Unit ProcessResult :=
  let sel := selectedYearOf history targetYear currentYear
  (processEntries sel history).map (fun entries =>
    { entries := entries,
      year := sel,
      totalItemsWatched := (entries.length : Int),
      moviesCount := ((entries.filter (fun e => e.type == ("movie"))).length : Int),
      episodesCount := ((entries.filter (fun e => e.type == ("episode"))).length : Int) })

/-- The successful per-record outcome: which normalized entry, if any,
a record contributes once the selected year is fixed.  Records with an
unparseable date, a year other than the selected one, or a kind other
than `episode`/`movie` contribute nothing. -/
def normalizedEntry (sel : Option Int) (r : RawRecord) : Option Entry :=
  match r.watched_at with
  | none => none
  | some d =>
    if some (yearOfDay d) = sel then
      if r.type = ("episode") then
        match r.episode, r.showInfo with
        | some ep, some sh =>
          some
            { day := d, title := sh.title,
              episodeTitle := some ep.title,
              episode := some (episodeCode ep.season ep.number),
              year := sh.year, type := ("episode"),
              rating := ratingOrNull ep.rating }
        | _, _ => none
      else if r.type = ("movie") then
        match r.movie with
        | some mv =>
          some
            { day := d, title := mv.title, year := mv.year,
              type := ("movie"), rating := ratingOrNull mv.rating }
        | none => none
      else none
    else none

/-- Well-formedness of raw history per the external interface: a
record announcing kind `episode` carries `episode` and `show` objects,
and one announcing `movie` carries a `movie` object. -/
def WfHistory (history : List RawRecord) : Prop :=
  ∀ r ∈ history, (r.type = ("episode") → r.episode.isSome ∧ r.showInfo.isSome) ∧
    (r.type = ("movie") → r.movie.isSome)

/-- Percentile thresholds over per-day counts (standalone script lines
93-103). -/
structure DayCountStats where
  p25 : Int
  p50 : Int
  p75 : Int
  p90 : Int
deriving Repr, DecidableEq

/-- Model of `calculateColorIntensity` (standalone script lines
83-91): the percentile color scheme. -/
def calculateColorIntensity (dayCount : Int) (s : DayCountStats) : Nat :=
  if dayCount = 0 then 0
  else if dayCount ≤ s.p25 then 1
  else if dayCount ≤ s.p50 then 2
  else if dayCount ≤ s.p75 then 3
  else if dayCount ≤ s.p90 then 4
  else 4

/-- Palette level computed by `getColor` (fetcher.js lines 497-504),
the linear max-count scheme: `Math.ceil((count / maxCount) * 4)`
clamped to `4`.  On the integer magnitudes reachable here the
double-precision computation agrees with the exact rational ceiling
`(4*count + maxCount - 1) / maxCount`. -/
def getColorLevel (count maxCount : Nat) : Nat :=
  if count = 0 then 0
  else if maxCount = 0 then 0
  else min ((4 * count + maxCount - 1) / maxCount) 4

/-- `sortedEntries` of `generateSvg` (fetcher.js lines 385-387):
filter the input entries to the display year (`getFullYear() === year`)
and sort ascending by date.  JavaScript `Array.prototype.sort` is
stable; `mergeSort` models it. -/
def sortedEntriesOf (entries : List Entry) (year : Int) : List Entry :=
  (entries.filter (fun e => yearOfDay e.day == year)).mergeSort (fun a b => a.day ≤ b.day)

/-- Increment one cell of a grid represented as a function from (row,
column) to count. -/
def bump (g : Int → Int → Nat) (i j : Int) : Int → Int → Nat :=
  fun a b => if a = i ∧ b = j then g a b + 1 else g a b

/-- One iteration of the grid-accumulation loop of `generateSvg`
(fetcher.js lines 444-453): compute `weekIndex` and `dayIndex` for the
entry and, when `0 <= weekIndex < totalWeeks`, increment the cell and
update the running `maxCount`.  (`generateMultiYearSvg` lines 1001-1010
runs the identical loop per year.) -/
def gridStep (year : Int) (ws : String) (gm : (Int → Int → Nat) × Nat)
    (e : Entry) : (Int → Int → Nat) × Nat :=
  let wi := weekIndexOf year ws e.day
  let di := dayIndexOf ws e.day
  if 0 ≤ wi ∧ wi < totalWeeksOf year ws then
    let g := bump gm.1 di wi
    (g, max gm.2 (g di wi))
  else gm

/-- The 7 × totalWeeks activity grid and running `maxCount` built by
`generateSvg` from a list of entries. -/
def buildGridMax (year : Int) (ws : String) (l : List Entry) : (Int → Int → Nat) × Nat :=
  l.foldl (gridStep year ws) (fun _ _ => 0, 0)

/-- The activity grid alone. -/
def buildGrid (year : Int) (ws : String) (l : List Entry) : Int → Int → Nat :=
  (buildGridMax year ws l).1

/-- The `maxCount` value alone. -/
def maxCountOf (year : Int) (ws : String) (l : List Entry) : Nat :=
  (buildGridMax year ws l).2

/-- Sum of all cells of the 7-row, `totalWeeks`-column grid. -/
def gridSum (year : Int) (ws : String) (g : Int → Int → Nat) : Nat :=
  ∑ i ∈ Finset.Icc (0:ℤ) 6, ∑ j ∈ Finset.Icc (0:ℤ) (totalWeeksOf year ws - 1), g i j

/-- The apostrophe as a string (kept out of literals). -/
def sq : String := (Char.ofNat 39).toString

/-- `escapeXml` on `String`s. -/
def escapeXmlStr (s : String) : String := String.mk (escapeXml s.data)

/-- The per-day item projection stored in the `groupEntriesByDate` map
(stats.js lines 98-104). -/
structure DayItem where
  title : String
  year : Int
  rating : Option Int
  type : String
  episode : Option String
deriving Repr, DecidableEq

/-- Projection of an entry into its per-day item. -/
def dayItemOf (e : Entry) : DayItem :=
  { title := e.title, year := e.year, rating := e.rating, type := e.type,
    episode := e.episode }

/-- Append an item under a date key, preserving `Map` insertion
order. -/
def appendDay : List (String × List DayItem) → String → DayItem → List (String × List DayItem)
  | [], k, it => [(k, [it])]
  | (k0, its) :: rest, k, it =>
    if k0 == k then (k0, its ++ [it]) :: rest else (k0, its) :: appendDay rest k it

/-- Model of `groupEntriesByDate` (stats.js lines 90-108): a `Map` from
local `YYYY-MM-DD` strings to the items watched that day. -/
def groupEntriesByDate (l : List Entry) : List (String × List DayItem) :=
  l.foldl (fun m e => appendDay m (dateString e.day) (dayItemOf e)) []

/-- `itemsPerDay.get(date) || []`. -/
def lookupDay (m : List (String × List DayItem)) (k : String) : List DayItem :=
  match m.find? (fun p => p.1 == k) with
  | some p => p.2
  | none => []

/-- Lexicographic comparison of strings (JavaScript `<=` on the
code-unit sequences, which agrees with code-point order on this
data). -/
def charListLe : List Char → List Char → Bool
  | [], _ => true
  | _ :: _, [] => false
  | a :: as, b :: bs => if a < b then true else if b < a then false else charListLe as bs

/-- String comparison used by the streak-cell test. -/
def strLeB (a b : String) : Bool := charListLe a.data b.data

/-- Count of entries falling on day-of-week `i` (`0 = Sunday`):
`weeklyDistribution[i]` of fetcher.js lines 401-405. -/
def weeklyDistributionOf (l : List Entry) (i : Int) : Nat :=
  (l.filter (fun e => dayOfWeek e.day == i)).length

/-- `Math.max(...weeklyDistribution)`. -/
def maxWeeklyOf (l : List Entry) : Nat :=
  (List.range 7).foldl (fun m i => max m (weeklyDistributionOf l (i : Int))) 0

/-- Theme palette record (fetcher.js lines 472-493). -/
structure Theme where
  bg : String
  cardBorder : String
  text : String
  textMuted : String
  tooltipBg : String
  tooltipBorder : String
  tooltipText : String
  colors : List String
deriving Repr, DecidableEq

/-- The dark Trakt theme. -/
def darkTheme : Theme :=
  { bg := "#0d1117", cardBorder := "#21262d", text := "#e6edf3", textMuted := "#7d8590",
    tooltipBg := "#161b22", tooltipBorder := "#30363d", tooltipText := "#f0f6fc",
    colors := ["#161b22", "#5c1015", "#8b1a22", "#c41e2a", "#ed1c24"] }

/-- The light Trakt theme. -/
def lightTheme : Theme :=
  { bg := "#ffffff", cardBorder := "#d1d9e0", text := "#1f2328", textMuted := "#656d76",
    tooltipBg := "#ffffff", tooltipBorder := "#d1d9e0", tooltipText := "#1f2328",
    colors := ["#ebedf0", "#ffc9cc", "#ff8a8f", "#ed4c55", "#ed1c24"] }

/-- `themes[theme] || themes.dark`: an unknown theme name falls back
to dark. -/
def themeOf (name : String) : Theme := if name == "light" then lightTheme else darkTheme

/-- `t.colors[i]` lookup. -/
def colorAt (t : Theme) (i : Nat) : String := t.colors.getD i ("")

/-- `getColor` of `generateSvg`: palette color of a per-day count
under the linear max-count scheme. -/
def getColor (t : Theme) (maxCount count : Nat) : String :=
  colorAt t (getColorLevel count maxCount)

/-- Base64 font payloads available to `generateFontFaceCSS`; a `none`
models a font file missing on disk (its key is then absent from the
`fonts` object, and an interpolation of it prints `undefined`). -/
structure Fonts where
  regular : Option String := none
  medium : Option String := none
  semibold : Option String := none
  bold : Option String := none
deriving Repr, DecidableEq

/-- One `@font-face` block of `generateFontFaceCSS` (fetcher.js lines
284-309). -/
def fontFace (weight : String) (url : String) : String :=
  "\n      @font-face \x7b\n        font-family: " ++ sq ++ "Inter" ++ sq ++
  ";\n        font-style: normal;\n        font-weight: " ++ weight ++
  ";\n        src: url(" ++ sq ++ url ++ sq ++ ") format(" ++ sq ++ "woff2" ++ sq ++
  ");\n      \x7d"

/-- Model of `generateFontFaceCSS`: empty when no font file was found,
otherwise the four `@font-face` declarations. -/
def generateFontFaceCSS (f : Fonts) : String :=
  if f.regular = none ∧ f.medium = none ∧ f.semibold = none ∧ f.bold = none then ""
  else
    fontFace ("400") (f.regular.getD ("undefined")) ++
    fontFace ("500") (f.medium.getD ("undefined")) ++
    fontFace ("600") (f.semibold.getD ("undefined")) ++
    fontFace ("700") (f.bold.getD ("undefined")) ++ "\n  "

/-- Options destructured at the top of `generateSvg` (fetcher.js lines
369-382); `year := none` selects the `new Date().getFullYear()`
default. -/
structure SvgOptions where
  theme : String := ("dark")
  year : Option Int := none
  weekStart : String := ("sunday")
  profileImage : Option String := none
  displayName : String := ("")
  username : String := ("")
  usernameGradient : Bool := true
  logoBase64 : Option String := none
  contentType : String := ("all")
  moviesCount : Int := 0
  episodesCount : Int := 0
  followers : Int := 0
deriving Repr, DecidableEq

/-- The display year: the explicit option, or the current local year
(the only use `generateSvg` makes of the clock). -/
def yearUsed (o : SvgOptions) (now : Int) : Int :=
  match o.year with
  | some y => y
  | none => yearOfDay now

/-- Context handed to the cell loop of `generateSvg`. -/
structure CellCtx where
  year : Int
  weekStart : String
  theme : Theme
  itemsPerDay : List (String × List DayItem)
  maxCount : Nat
  streak : StreakResult
  username : String
  svgWidth : Int
deriving Repr, DecidableEq

/-- Tooltip line of one watched item (fetcher.js lines 743-748 and
776-785): episode entries carry their `SxxEyy` code. -/
def itemLine (it : DayItem) : String :=
  match it.episode with
  | some ec =>
    if it.type == "episode" && ec != "" then
      "• " ++ it.title ++ " " ++ ec ++ " (" ++ toString it.year ++ ")"
    else "• " ++ it.title ++ " (" ++ toString it.year ++ ")"
  | none => "• " ++ it.title ++ " (" ++ toString it.year ++ ")"

/-- Month names table. -/
def monthName (i : Int) : String :=
  (["Jan", "Feb", "Mar", "Apr", "May", "Jun", "Jul", "Aug", "Sep", "Oct",
    "Nov", "Dec"].getD (i - 1).toNat (""))

/-- Weekday names table (`0 = Sunday`). -/
def weekdayName (i : Int) : String :=
  (["Sun", "Mon", "Tue", "Wed", "Thu", "Fri", "Sat"].getD i.toNat (""))

/-- The body of the cell loop of `generateSvg` (fetcher.js lines
708-793) for the cell at row `day`, column `week`: the empty string
when the cell's date falls outside the display year (the loop does
`continue`, emitting nothing), otherwise the cell rectangle with its
hover tooltip. -/
def fetcherCellFragment (ctx : CellCtx) (day week : Int) : String :=
  let cellDate := startDateOf ctx.year ctx.weekStart + week * 7 + day
  if cellDate < jan1 ctx.year ∨ dec31 ctx.year < cellDate then ""
  else
    let t := ctx.theme
    let tooltipDate := dateString cellDate
    let itemsForDay := lookupDay ctx.itemsPerDay tooltipDate
    let count := itemsForDay.length
    let color := getColor t ctx.maxCount count
    let x := week * 17
    let y := day * 17
    let historyUrl := "https://trakt.tv/users/" ++ ctx.username ++ "/history"
    let c := civilOf cellDate
    let tooltipTitle := weekdayName (dayOfWeek cellDate) ++ ", " ++ toString c.2.2 ++
      ". " ++ monthName c.2.1 ++ " " ++ toString c.1 ++ ": " ++ toString count ++
      " item" ++ (if count ≠ 1 then "s" else "") ++ " watched"
    let tooltipHeight := 38 + (count : Int) * 18
    let lineWidths := (tooltipTitle :: itemsForDay.map itemLine).map
      (fun s => (s.length : Int) * 7)
    let tooltipWidth := lineWidths.foldl max 280
    let tooltipX := min x (ctx.svgWidth - 51 - tooltipWidth - 10)
    let isStreakCell :=
      match ctx.streak.startDate, ctx.streak.endDate with
      | some sd, some ed =>
        0 < ctx.streak.length && strLeB (dateString sd) tooltipDate &&
          strLeB tooltipDate (dateString ed)
      | _, _ => false
    let cellClass := if isStreakCell then "cell streak-cell" else "cell"
    "\n    <g class=\"cell-group\">" ++
    "\n      <a href=\"" ++ historyUrl ++ "\" target=\"_blank\">" ++
    "\n        <rect class=\"" ++ cellClass ++ "\"" ++
    "\n          x=\"" ++ toString x ++ "\"" ++
    "\n          y=\"" ++ toString y ++ "\"" ++
    "\n          width=\"14\"" ++
    "\n          height=\"14\"" ++
    "\n          rx=\"2\"" ++
    "\n          fill=\"" ++ color ++ "\"" ++
    "\n        />" ++
    "\n        <g class=\"tooltip-group\" transform=\"translate(" ++ toString tooltipX ++
      ", " ++ toString (y - tooltipHeight - 8) ++ ")\">" ++
    "\n          <rect x=\"0\" y=\"0\" width=\"" ++ toString tooltipWidth ++
      "\" height=\"" ++ toString tooltipHeight ++ "\" rx=\"6\" fill=\"" ++ t.tooltipBg ++
      "\" stroke=\"" ++ t.tooltipBorder ++ "\" stroke-width=\"1\"/>" ++
    "\n          <text font-family=\"" ++ sq ++ "Segoe UI" ++ sq ++
      ", Inter, Arial, sans-serif\" font-size=\"12\" fill=\"" ++ t.tooltipText ++ "\">" ++
    "\n            <tspan x=\"10\" dy=\"22\" font-weight=\"600\">" ++
      escapeXmlStr tooltipTitle ++ "</tspan>" ++
    String.join (itemsForDay.map (fun it =>
      "\n            <tspan x=\"10\" dy=\"18\">" ++ escapeXmlStr (itemLine it) ++
        "</tspan>")) ++
    "\n          </text>" ++
    "\n        </g>" ++
    "\n      </a>" ++
    "\n    </g>"

/-- The `opacity` attribute the standalone script gives a cell
rectangle (standalone script line 290): `"0"` outside the display
year, `"1"` inside. -/
def standaloneCellOpacity (cellDay : Int) (year : Int) : String :=
  if cellDay < jan1 year ∨ dec31 year < cellDay then "0" else "1"

/-- The cell rectangle emitted by the standalone script's `generateSvg`
(standalone script lines 314-315, `CELL_SIZE = 11`): always present,
with zero opacity outside the display year. -/
def standaloneCellRect (cellDay : Int) (year : Int) (x y : Int) (color : String)
    (count : Nat) : String :=
  "\n        <rect x=\"" ++ toString x ++ "\" y=\"" ++ toString y ++
  "\" width=\"11\" height=\"11\" rx=\"2\" ry=\"2\" fill=\"" ++ color ++
  "\" opacity=\"" ++ standaloneCellOpacity cellDay year ++
  "\" data-date=\"" ++ dateString cellDay ++
  "\" data-count=\"" ++ toString count ++ "\"/>"

/-- The opening tag, `<defs>` block (filter, clip path, gradient,
embedded style sheet) and card background of `generateSvg` (fetcher.js
lines 507-582). -/
def svgOpenAndDefs (svgWidth : Int) (t : Theme) (fonts : Fonts) : String :=
  "<svg width=\"" ++ toString svgWidth ++ "\" height=\"290\" viewBox=\"0 0 " ++
    toString svgWidth ++ " 290\" fill=\"none\" xmlns=\"http://www.w3.org/2000/svg\">" ++
  "\n  <defs>" ++
  "\n    <filter id=\"shadow\" x=\"-20%\" y=\"-20%\" width=\"140%\" height=\"140%\">" ++
  "\n      <feDropShadow dx=\"0\" dy=\"2\" stdDeviation=\"4\" flood-color=\"#000000\" flood-opacity=\"0.1\"/>" ++
  "\n    </filter>" ++
  "\n    <clipPath id=\"profileClip\">" ++
  "\n      <circle cx=\"40\" cy=\"40\" r=\"40\"/>" ++
  "\n    </clipPath>" ++
  "\n    <linearGradient id=\"usernameGradient\" x1=\"0%\" y1=\"0%\" x2=\"100%\" y2=\"0%\">" ++
  "\n      <stop offset=\"0%\" stop-color=\"#ED1C24\"/>" ++
  "\n      <stop offset=\"100%\" stop-color=\"#FF6B6B\"/>" ++
  "\n    </linearGradient>" ++
  "\n    <style type=\"text/css\">" ++
  "\n      <![CDATA[" ++
  "\n      " ++ generateFontFaceCSS fonts ++
  "\n      .tooltip-group \x7b" ++
  "\n        opacity: 0;" ++
  "\n        transition: opacity 0.2s ease;" ++
  "\n        pointer-events: none;" ++
  "\n      \x7d" ++
  "\n      .cell-group:hover .tooltip-group \x7b" ++
  "\n        opacity: 1;" ++
  "\n      \x7d" ++
  "\n      .cell-group:hover .cell \x7b" ++
  "\n        filter: brightness(1.3);" ++
  "\n      \x7d" ++
  "\n      .cell \x7b" ++
  "\n        transition: filter 0.2s ease;" ++
  "\n      \x7d" ++
  "\n      .streak-tooltip \x7b" ++
  "\n        opacity: 0;" ++
  "\n        transition: opacity 0.2s ease;" ++
  "\n        pointer-events: none;" ++
  "\n      \x7d" ++
  "\n      .streak-group:hover .streak-tooltip \x7b" ++
  "\n        opacity: 1;" ++
  "\n      \x7d" ++
  "\n      .streak-group:hover \x7b" ++
  "\n        cursor: pointer;" ++
  "\n      \x7d" ++
  "\n      .streak-cell \x7b" ++
  "\n        transition: filter 0.2s ease, stroke 0.2s ease, stroke-width 0.2s ease;" ++
  "\n      \x7d" ++
  "\n      svg:has(.streak-group:hover) .streak-cell \x7b" ++
  "\n        filter: brightness(1.4) saturate(1.2);" ++
  "\n        stroke: #ed1c24;" ++
  "\n        stroke-width: 2;" ++
  "\n      \x7d" ++
  "\n      .days-active-tooltip \x7b" ++
  "\n        opacity: 0;" ++
  "\n        transition: opacity 0.2s ease;" ++
  "\n        pointer-events: none;" ++
  "\n      \x7d" ++
  "\n      .days-active-group:hover .days-active-tooltip \x7b" ++
  "\n        opacity: 1;" ++
  "\n      \x7d" ++
  "\n      .days-active-group:hover \x7b" ++
  "\n        cursor: pointer;" ++
  "\n      \x7d" ++
  "\n      .items-tooltip \x7b" ++
  "\n        opacity: 0;" ++
  "\n        transition: opacity 0.2s ease;" ++
  "\n        pointer-events: none;" ++
  "\n      \x7d" ++
  "\n      .items-group:hover .items-tooltip \x7b" ++
  "\n        opacity: 1;" ++
  "\n      \x7d" ++
  "\n      .items-group:hover \x7b" ++
  "\n        cursor: pointer;" ++
  "\n      \x7d" ++
  "\n      ]]>" ++
  "\n    </style>" ++
  "\n  </defs>" ++
  "\n  " ++
  "\n  <!-- Main Card -->" ++
  "\n  <rect width=\"100%\" height=\"100%\" rx=\"12\" fill=\"" ++ t.bg ++
    "\" stroke=\"" ++ t.cardBorder ++ "\" stroke-width=\"1\" filter=\"url(#shadow)\"/>"

/-- One bullet-separated count block of the header text (fetcher.js
lines 601-612). -/
def tspanCountBlock (t : Theme) (label : String) (n : Int) : String :=
  "\n      <tspan dx=\"5\" fill=\"" ++ t.textMuted ++ "\">•</tspan>" ++
  "\n      <tspan dx=\"5\" fill=\"" ++ t.text ++ "\">" ++ toString n ++ "</tspan>" ++
  "\n      <tspan fill=\"" ++ t.textMuted ++ "\"> " ++ label ++ "</tspan>"

/-- The header section of `generateSvg` (fetcher.js lines 584-621):
profile image, display name, username with count blocks, and logo. -/
def svgHeader (t : Theme) (o : SvgOptions) (svgWidth : Int) : String :=
  "\n" ++
  "\n  <!-- Header Section -->" ++
  "\n  <g transform=\"translate(25, 20)\">" ++
  "\n    <!-- Profile Image (clickable) -->" ++
  "\n    <a href=\"https://trakt.tv/users/" ++ o.username ++ "\" target=\"_blank\">" ++
  "\n      <circle cx=\"40\" cy=\"40\" r=\"42\" fill=\"" ++ t.cardBorder ++ "\"/>" ++
  "\n      " ++ (match o.profileImage with
    | some img => "<image href=\"" ++ img ++
        "\" x=\"0\" y=\"0\" width=\"80\" height=\"80\" clip-path=\"url(#profileClip)\" style=\"cursor: pointer;\"/>"
    | none => "<circle cx=\"40\" cy=\"40\" r=\"40\" fill=\"" ++ colorAt t 2 ++ "\"/>") ++
  "\n    </a>" ++
  "\n" ++
  "\n    <!-- Name and Info (clickable) -->" ++
  "\n    <a href=\"https://trakt.tv/users/" ++ o.username ++ "\" target=\"_blank\">" ++
  "\n      <text x=\"100\" y=\"35\" font-family=\"" ++ sq ++ "Segoe UI" ++ sq ++
    ", Inter, Arial, sans-serif\" font-size=\"28\" font-weight=\"600\" fill=\"" ++
    (if o.usernameGradient then "url(#usernameGradient)" else t.text) ++
    "\" style=\"cursor: pointer;\">" ++ escapeXmlStr o.displayName ++ "</text>" ++
  "\n    </a>" ++
  "\n" ++
  "\n    <text x=\"100\" y=\"60\" font-family=\"" ++ sq ++ "Segoe UI" ++ sq ++
    ", Inter, Arial, sans-serif\" font-size=\"14\" font-weight=\"500\">" ++
  "\n      <a href=\"https://trakt.tv/users/" ++ o.username ++
    "\" target=\"_blank\" style=\"cursor: pointer;\">" ++
  "\n        <tspan fill=\"" ++ t.textMuted ++ "\">@" ++ escapeXmlStr o.username ++ "</tspan>" ++
  "\n      </a>" ++
  "\n      " ++ (if 0 < o.moviesCount then tspanCountBlock t ("Movies") o.moviesCount else "") ++
  "\n      " ++ (if 0 < o.episodesCount then tspanCountBlock t ("Episodes") o.episodesCount else "") ++
  "\n      " ++ (if 0 < o.followers then tspanCountBlock t ("Followers") o.followers else "") ++
  "\n    </text>" ++
  "\n" ++
  "\n    <!-- Trakt Logo (clickable, links to main site) -->" ++
  "\n    " ++ (match o.logoBase64 with
    | some logo => "<a href=\"https://trakt.tv/\" target=\"_blank\">" ++
        "\n      <g transform=\"translate(" ++ toString (svgWidth - 117) ++ ", 0)\">" ++
        "\n        <image href=\"" ++ logo ++
          "\" x=\"0\" y=\"4\" width=\"72\" height=\"72\" style=\"cursor: pointer;\"/>" ++
        "\n      </g>" ++
        "\n    </a>"
    | none => "") ++
  "\n  </g>"

/-- Streak boundary date as interpolated into the tooltip (a string in
the source; `null` would print as `"null"`). -/
def streakDateStr (d : Option Int) : String :=
  match d with
  | some v => dateString v
  | none => "null"

/-- One column of the weekly-distribution tooltip (fetcher.js lines
639-648).  `Math.round((count / maxWeeklyCount) * 45)` is the exact
half-up rounding `(90*count + maxW) / (2*maxW)`. -/
def weeklyBarFragment (t : Theme) (wd : Int → Nat) (maxW : Nat) (ws : String)
    (i : Nat) : String :=
  let letters := if isMonday ws then ["M", "T", "W", "T", "F", "S", "S"]
    else ["S", "M", "T", "W", "T", "F", "S"]
  let dayLetter := letters.getD i ("")
  let dayIndex : Int := if isMonday ws then ((i : Int) + 1) % 7 else (i : Int)
  let count := wd dayIndex
  let barHeight : Int :=
    if 0 < maxW then (90 * (count : Int) + (maxW : Int)) / (2 * (maxW : Int)) else 0
  let x : Int := 20 + (i : Int) * 24
  "\n        <text x=\"" ++ toString (x + 7) ++ "\" y=\"" ++
    toString (80 - barHeight - 3) ++ "\" font-size=\"9\" fill=\"" ++ t.tooltipText ++
    "\" text-anchor=\"middle\">" ++ toString count ++ "</text>" ++
  "\n        <rect x=\"" ++ toString x ++ "\" y=\"" ++ toString (80 - barHeight) ++
    "\" width=\"14\" height=\"" ++ toString barHeight ++ "\" rx=\"2\" fill=\"" ++
    colorAt t 3 ++ "\"/>" ++
  "\n        <text x=\"" ++ toString (x + 7) ++
    "\" y=\"100\" font-size=\"9\" fill=\"" ++ t.text ++ "\" text-anchor=\"middle\">" ++
    dayLetter ++ "</text>"

/-- The stats row of `generateSvg` (fetcher.js lines 623-676): year,
item count, days active with weekly-distribution tooltip, streak with
its tooltip, and the five-color legend. -/
def svgStatsRow (t : Theme) (ws : String) (displayYear : Int) (totalItems : Nat)
    (itemLabel : String) (daysActive : Int) (wd : Int → Nat) (maxW : Nat)
    (streak : StreakResult) (svgWidth : Int) : String :=
  "\n" ++
  "\n  <!-- Stats Row -->" ++
  "\n  <g transform=\"translate(25, 115)\" font-family=\"" ++ sq ++ "Segoe UI" ++ sq ++
    ", Inter, Arial, sans-serif\">" ++
  "\n    <text x=\"0\" y=\"20\" font-size=\"16\" font-weight=\"600\" fill=\"" ++ t.text ++
    "\">" ++ toString displayYear ++ "</text>" ++
  "\n    " ++
  "\n" ++
  "\n    <!-- Items count (static, no tooltip) -->" ++
  "\n    <g transform=\"translate(60, 5)\">" ++
  "\n      <text x=\"0\" y=\"15\" font-size=\"14\" font-weight=\"500\" fill=\"" ++
    t.textMuted ++ "\">" ++ toString totalItems ++ " " ++ itemLabel ++ "</text>" ++
  "\n    </g>" ++
  "\n    " ++
  "\n    <!-- Days Active with hover tooltip -->" ++
  "\n    <g class=\"days-active-group\" transform=\"translate(180, 5)\">" ++
  "\n      <text x=\"0\" y=\"15\" font-size=\"14\" font-weight=\"500\" fill=\"" ++
    t.textMuted ++ "\">" ++ toString daysActive ++ " Days Active</text>" ++
  "\n      <g class=\"days-active-tooltip\" transform=\"translate(-20, -115)\">" ++
  "\n        <rect x=\"0\" y=\"0\" width=\"200\" height=\"105\" rx=\"6\" fill=\"" ++
    t.tooltipBg ++ "\" stroke=\"" ++ t.tooltipBorder ++ "\" stroke-width=\"1\"/>" ++
  "\n        <text x=\"100\" y=\"18\" font-size=\"11\" font-weight=\"600\" fill=\"" ++
    t.tooltipText ++ "\" text-anchor=\"middle\">Weekly Distribution</text>" ++
  "\n        " ++ String.join ((List.range 7).map (weeklyBarFragment t wd maxW ws)) ++
  "\n      </g>" ++
  "\n    </g>" ++
  "\n    " ++
  "\n    <!-- Streak with hover tooltip -->" ++
  "\n    <g class=\"streak-group\" transform=\"translate(320, 5)\">" ++
  "\n      <path d=\"M8.5 14.5A2.5 2.5 0 0 0 11 12c0-1.38-.5-2-1-3-1.072-2.143-.224-4.054 2-6 .5 2.5 2 4.9 4 6.5 2 1.6 3 3.5 3 5.5a7 7 0 1 1-14 0c0-1.153.433-2.294 1-3a2.5 2.5 0 0 0 2.5 2.5z\"" ++
  "\n            stroke=\"" ++ (if 0 < streak.length then "#ed1c24" else t.textMuted) ++
    "\" stroke-width=\"1.5\" stroke-linecap=\"round\" stroke-linejoin=\"round\" fill=\"" ++
    (if 0 < streak.length then "#ed1c24" else "none") ++
    "\" fill-opacity=\"0.2\" transform=\"scale(0.75)\"/>" ++
  "\n      <text x=\"18\" y=\"13\" font-size=\"14\" font-weight=\"500\" fill=\"" ++
    t.textMuted ++ "\">" ++ toString streak.length ++ " Day Streak</text>" ++
  "\n      " ++ (if 0 < streak.length then
      "<g class=\"streak-tooltip\" transform=\"translate(0, -45)\">" ++
      "\n        <rect x=\"-10\" y=\"0\" width=\"180\" height=\"36\" rx=\"6\" fill=\"" ++
        t.tooltipBg ++ "\" stroke=\"" ++ t.tooltipBorder ++ "\" stroke-width=\"1\"/>" ++
      "\n        <text x=\"5\" y=\"23\" font-size=\"12\" fill=\"" ++ t.tooltipText ++
        "\">" ++ streakDateStr streak.startDate ++ " → " ++
        streakDateStr streak.endDate ++ "</text>" ++
      "\n      </g>" else "") ++
  "\n    </g>" ++
  "\n" ++
  "\n    <!-- Legend (right side) -->" ++
  "\n    <g transform=\"translate(" ++ toString (svgWidth - 200) ++ ", 0)\">" ++
  "\n      <text x=\"0\" y=\"20\" font-size=\"12\" fill=\"" ++ t.textMuted ++
    "\">Less</text>" ++
  String.join ((List.range 5).map (fun i =>
    "\n      <rect x=\"" ++ toString (35 + i * 18) ++
      "\" y=\"7\" width=\"13\" height=\"13\" rx=\"2\" fill=\"" ++ colorAt t i ++ "\"/>")) ++
  "\n      <text x=\"130\" y=\"20\" font-size=\"12\" fill=\"" ++ t.textMuted ++
    "\">More</text>" ++
  "\n    </g>" ++
  "\n  </g>"

/-- Month labels of `generateSvg` (fetcher.js lines 678-688): one label
per month whose first day is on or after the grid start, anchored at
that day's grid column. -/
def svgMonthLabels (t : Theme) (year : Int) (ws : String) : String :=
  "\n" ++
  "\n  <!-- Month Labels -->" ++
  "\n  <g transform=\"translate(51, 157)\" font-family=\"" ++ sq ++ "Segoe UI" ++ sq ++
    ", Inter, Arial, sans-serif\">" ++
  String.join ((List.range 12).map (fun i =>
    let firstDay := daysFromCivil year ((i : Int) + 1) 1
    let daysSinceStart := firstDay - startDateOf year ws
    if daysSinceStart < 0 then ""
    else
      "<text x=\"" ++ toString ((daysSinceStart / 7) * 17) ++
        "\" y=\"0\" font-size=\"11\" fill=\"" ++ t.textMuted ++
        "\" font-weight=\"500\">" ++ monthName ((i : Int) + 1) ++ "</text>"))

/-- Day labels and the opening of the activity grid group (fetcher.js
lines 690-705). -/
def svgDayLabels (t : Theme) (ws : String) : String :=
  let days := if isMonday ws then ["Mon", "Tue", "Wed", "Thu", "Fri", "Sat", "Sun"]
    else ["Sun", "Mon", "Tue", "Wed", "Thu", "Fri", "Sat"]
  "\n  </g>" ++
  "\n" ++
  "\n  <!-- Day Labels -->" ++
  "\n  <g transform=\"translate(26, 165)\" font-family=\"" ++ sq ++ "Segoe UI" ++ sq ++
    ", Inter, Arial, sans-serif\">" ++
  String.join ((List.range 7).map (fun i =>
    "\n    <text x=\"0\" y=\"" ++ toString (i * 17 + 11) ++
      "\" font-size=\"10\" fill=\"" ++ t.textMuted ++ "\" text-anchor=\"end\">" ++
      (days.getD i ("")).take 1 ++ "</text>")) ++
  "\n  </g>" ++
  "\n" ++
  "\n  <!-- Activity Grid -->" ++
  "\n  <g transform=\"translate(51, 165)\">"

/-- All cells of the activity grid, day-major as in the source's nested
loops. -/
def cellsOf (ctx : CellCtx) : String :=
  String.join ((List.range 7).map (fun day =>
    String.join ((List.range (totalWeeksOf ctx.year ctx.weekStart).toNat).map (fun week =>
      fetcherCellFragment ctx (day : Int) (week : Int)))))

/-- Closing tags of the document (fetcher.js lines 795-797). -/
def svgClose : String := "\n  </g>\n</svg>"

/-- The whole document for a fixed display year: the body of
`generateSvg` after the `year` option default is resolved.  Mirrors
fetcher.js lines 384-800 top to bottom.  (The rating-distribution
tallies of lines 408-424 are computed by the source but never used in
the output and are omitted.) -/
def generateSvgBody (entries : List Entry) (o : SvgOptions) (fonts : Fonts)
    (year : Int) : String :=
  let ws := o.weekStart
  let sortedEntries := sortedEntriesOf entries year
  let streak := calculateStreak sortedEntries
  let daysActive := calculateDaysActive sortedEntries
  let totalItems := sortedEntries.length
  let itemsPerDay := groupEntriesByDate sortedEntries
  let itemLabel := if o.contentType == "movies" then "Movies"
    else if o.contentType == "shows" then "Episodes" else "Items"
  let maxCount := maxCountOf year ws sortedEntries
  let t := themeOf o.theme
  let svgWidth := max 1000 (totalWeeksOf year ws * 17 + 100)
  let ctx : CellCtx :=
    { year := year, weekStart := ws, theme := t,
      itemsPerDay := itemsPerDay, maxCount := maxCount, streak := streak,
      username := o.username, svgWidth := svgWidth }
  svgOpenAndDefs svgWidth t fonts ++
  svgHeader t o svgWidth ++
  svgStatsRow t ws year totalItems itemLabel daysActive
    (weeklyDistributionOf sortedEntries) (maxWeeklyOf sortedEntries) streak svgWidth ++
  svgMonthLabels t year ws ++
  svgDayLabels t ws ++
  cellsOf ctx ++
  svgClose

/-- Model of `generateSvg` (fetcher.js lines 368-800).  `now` is the
clock reading (`new Date()`), consulted only for the default display
year; `fonts` is the state of the on-disk font files, loaded once per
process and identical across invocations. -/
def generateSvg (entries : List Entry) (o : SvgOptions) (fonts : Fonts)
    (now : Int) : String :=
  generateSvgBody entries o fonts (yearUsed o now)

/-- The concrete cell context of a 2024 Sunday-start rendering with no
entries (used for the C8 cells). -/
def outsideCellCtx : CellCtx :=
  { year := 2024, weekStart := ("sunday"), theme := darkTheme, itemsPerDay := [],
    maxCount := 0, streak := { length := 0, startDate := none, endDate := none },
    username := (""), svgWidth := 1000 }

/-- Entries covering exactly the unique days 2024-01-01, 2024-01-02,
2024-01-03 and 2024-01-05 (the streak example of the spec). -/
def exampleStreakEntries : List Entry :=
  [ { day := daysFromCivil 2024 1 1, title := "a" },
    { day := daysFromCivil 2024 1 2, title := "b" },
    { day := daysFromCivil 2024 1 3, title := "c" },
    { day := daysFromCivil 2024 1 5, title := "d" } ]

/-- A concrete well-formed movie record (used to witness
`processTraktHistory_spec`). -/
def sampleMovieRecord : RawRecord :=
  { watched_at := some (daysFromCivil 2024 3 10), type := ("movie"),
    movie := some { title := "Heat", year := 1995 } }

/-- A concrete record with an unparseable watch date. -/
def sampleBadDateRecord : RawRecord :=
  { watched_at := none, type := ("movie"),
    movie := some { title := "Gone", year := 2000 } }

/-- A concrete record with an unrecognized kind. -/
def sampleUnknownRecord : RawRecord :=
  { watched_at := some (daysFromCivil 2024 3 11), type := ("season") }

/-- A concrete history mixing good, bad-date, and unknown-kind
records. -/
def sampleHistory : List RawRecord :=
  [sampleMovieRecord, sampleBadDateRecord, sampleUnknownRecord]

theorem yoeOf_spec (rem : Int) (h1 : 0 ≤ rem) (h2 : rem < 146097) :
    gregCount (yoeOf rem) ≤ rem ∧ rem < gregCount (yoeOf rem + 1) ∧
      0 ≤ yoeOf rem ∧ yoeOf rem ≤ 399 := by
  have hy : yoeOf rem = (if 365*(if rem / 365 ≤ 399 then rem / 365 else 399) +
      (if rem / 365 ≤ 399 then rem / 365 else 399)/4 -
      (if rem / 365 ≤ 399 then rem / 365 else 399)/100 ≤ rem
      then (if rem / 365 ≤ 399 then rem / 365 else 399)
      else (if rem / 365 ≤ 399 then rem / 365 else 399) - 1) := rfl
  by_cases hc : rem / 365 ≤ 399
  · simp only [hc, if_true] at hy
    by_cases hd : 365*(rem/365) + (rem/365)/4 - (rem/365)/100 ≤ rem
    · simp only [hd, if_true] at hy
      rw [hy]; unfold gregCount; omega
    · simp only [hd, if_false] at hy
      rw [hy]; unfold gregCount
      rw [Int.sub_add_cancel]
      omega
  · simp only [hc, if_false] at hy
    by_cases hd : 365*(399:Int) + (399:Int)/4 - (399:Int)/100 ≤ rem
    · simp only [hd, if_true] at hy
      rw [hy]; unfold gregCount; omega
    · simp only [hd, if_false] at hy
      rw [hy]; unfold gregCount; omega

theorem gregCount_shift (k s : Int) :
    gregCount (400*k + s) = 146097*k + gregCount s := by
  unfold gregCount; omega

theorem jan1_mono (a b : Int) (h : a ≤ b) : jan1 a ≤ jan1 b := by
  unfold jan1 gregCount; omega

theorem jan1_strictMono (a b : Int) (h : a < b) : jan1 a < jan1 b := by
  unfold jan1 gregCount; omega

theorem yearOfDay_bounds (d : Int) :
    jan1 (yearOfDay d) ≤ d ∧ d ≤ dec31 (yearOfDay d) := by
  have hrel : 146097 * ((d + 719162) / 146097) + (d + 719162) % 146097 = d + 719162 := by
    omega
  have hrem1 : 0 ≤ (d + 719162) % 146097 := by omega
  have hrem2 : (d + 719162) % 146097 < 146097 := by omega
  obtain ⟨k1, k2, _, _⟩ := yoeOf_spec ((d + 719162) % 146097) hrem1 hrem2
  have hy : yearOfDay d
      = 400 * ((d + 719162) / 146097) + yoeOf ((d + 719162) % 146097) + 1 := rfl
  constructor
  · unfold jan1
    rw [hy]
    have harg : 400 * ((d + 719162) / 146097) + yoeOf ((d + 719162) % 146097) + 1 - 1
        = 400 * ((d + 719162) / 146097) + yoeOf ((d + 719162) % 146097) := by ring
    rw [harg, gregCount_shift]
    omega
  · unfold dec31 jan1
    rw [hy]
    have harg : 400 * ((d + 719162) / 146097) + yoeOf ((d + 719162) % 146097) + 1 + 1 - 1
        = 400 * ((d + 719162) / 146097) + (yoeOf ((d + 719162) % 146097) + 1) := by ring
    rw [harg, gregCount_shift]
    omega

theorem yearOfDay_eq_iff (d y : Int) :
    yearOfDay d = y ↔ (jan1 y ≤ d ∧ d ≤ dec31 y) := by
  constructor
  · rintro rfl; exact yearOfDay_bounds d
  · rintro ⟨h1, h2⟩
    by_contra hne
    have hb := yearOfDay_bounds d
    unfold dec31 at hb h2
    rcases lt_or_gt_of_ne hne with hlt | hgt
    · have q1 : jan1 (yearOfDay d + 1) ≤ jan1 y := jan1_mono _ _ (by omega)
      omega
    · have q1 : jan1 (y + 1) ≤ jan1 (yearOfDay d) := jan1_mono _ _ (by omega)
      omega

theorem dayIndexOf_mem (ws : String) (d : Int) :
    0 ≤ dayIndexOf ws d ∧ dayIndexOf ws d < 7 := by
  unfold dayIndexOf dayOfWeek
  split <;> omega

theorem startDateOf_le_jan1 (year : Int) (ws : String) :
    jan1 year - 6 ≤ startDateOf year ws ∧ startDateOf year ws ≤ jan1 year := by
  unfold startDateOf dayOfWeek
  dsimp only
  split <;> split <;> omega

theorem dec31_lt_jan1_succ (y : Int) : jan1 y ≤ dec31 y := by
  unfold dec31 jan1 gregCount; omega

/-- C2: for every year and week start, the layout start date is January
1 of the year shifted backward by `(startDow + 6) % 7` days for Monday
start and by `startDow` days for Sunday start, where `startDow` is
January 1's day of week with `0 = Sunday`; for 2024 a Monday-start grid
begins on 2024-01-01 and a Sunday-start grid on 2023-12-31. -/
theorem startDate_spec :
    (∀ (year : Int) (ws : String),
        startDateOf year ws
          = jan1 year - (if isMonday ws then (dayOfWeek (jan1 year) + 6) % 7
              else dayOfWeek (jan1 year))) ∧
      startDateOf 2024 ("monday") = daysFromCivil 2024 1 1 ∧
      startDateOf 2024 ("sunday") = daysFromCivil 2023 12 31 := by
  refine ⟨?_, by decide, by decide⟩
  intro year ws
  unfold startDateOf dayOfWeek
  dsimp only
  split <;> split <;> omega

theorem insertDay_mem (x a : Int) : ∀ (l : List Int), a ∈ insertDay x l ↔ a = x ∨ a ∈ l := by
  intro l
  induction l with
  | nil => simp [insertDay]
  | cons y ys ih =>
    unfold insertDay
    by_cases h1 : x < y
    · simp [h1]
    · by_cases h2 : x = y
      · subst h2
        simp [h1]
      · simp [h1, h2, ih]
        tauto

theorem insertDay_pairwise (x : Int) :
    ∀ (l : List Int), l.Pairwise (· < ·) → (insertDay x l).Pairwise (· < ·) := by
  intro l
  induction l with
  | nil => intro _; simp [insertDay]
  | cons y ys ih =>
    intro hp
    rw [List.pairwise_cons] at hp
    obtain ⟨hy, hys⟩ := hp
    unfold insertDay
    by_cases h1 : x < y
    · simp only [h1, if_true]
      rw [List.pairwise_cons]
      refine ⟨?_, ?_⟩
      · intro z hz
        rcases List.mem_cons.mp hz with rfl | hz2
        · exact h1
        · exact lt_trans h1 (hy z hz2)
      · rw [List.pairwise_cons]; exact ⟨hy, hys⟩
    · by_cases h2 : x = y
      · simp only [h1, h2, lt_self_iff_false, if_false, if_true]
        rw [List.pairwise_cons]; exact ⟨hy, hys⟩
      · simp only [h1, h2, if_false]
        rw [List.pairwise_cons]
        refine ⟨?_, ih hys⟩
        intro z hz
        rcases (insertDay_mem x z ys).mp hz with rfl | hz2
        · omega
        · exact hy z hz2

theorem sortedUnique_pairwise (l : List Int) : (sortedUnique l).Pairwise (· < ·) := by
  induction l with
  | nil => simp [sortedUnique]
  | cons y ys ih => exact insertDay_pairwise y _ ih

theorem sortedUnique_mem (l : List Int) (a : Int) : a ∈ sortedUnique l ↔ a ∈ l := by
  induction l with
  | nil => simp [sortedUnique]
  | cons y ys ih =>
    show a ∈ insertDay y (sortedUnique ys) ↔ _
    rw [insertDay_mem, ih]
    simp

theorem isRun_superset {S T : List Int} {a b : Int} (hsub : ∀ z, z ∈ S → z ∈ T)
    (h : isRun S a b) : isRun T a b :=
  ⟨h.1, fun d h1 h2 => hsub d (h.2 d h1 h2)⟩

theorem isRun_one {S : List Int} {x : Int} (hx : x ∈ S) : isRun S x x := by
  refine ⟨le_refl x, ?_⟩
  intro d h1 h2
  have : d = x := le_antisymm h2 h1
  subst this; exact hx

theorem scanStreak_spec :
    ∀ (xs p : List Int) (prev curStart cur maxS maxStart maxEnd : Int),
      (p ++ xs).Pairwise (· < ·) →
      prev ∈ p →
      (∀ z, z ∈ p → z ≤ prev) →
      isRun p curStart prev →
      (curStart - 1) ∉ p →
      cur = prev - curStart + 1 →
      isRun p maxStart maxEnd →
      maxS = maxEnd - maxStart + 1 →
      (∀ a b, isRun p a b → b - a + 1 ≤ maxS) →
      isRun (p ++ xs) (scanStreak xs prev curStart cur maxS maxStart maxEnd).2.1
          (scanStreak xs prev curStart cur maxS maxStart maxEnd).2.2 ∧
        (scanStreak xs prev curStart cur maxS maxStart maxEnd).1
          = (scanStreak xs prev curStart cur maxS maxStart maxEnd).2.2
            - (scanStreak xs prev curStart cur maxS maxStart maxEnd).2.1 + 1 ∧
        ∀ a b, isRun (p ++ xs) a b
          → b - a + 1 ≤ (scanStreak xs prev curStart cur maxS maxStart maxEnd).1 := by
  intro xs
  induction xs with
  | nil =>
    intro p prev curStart cur maxS maxStart maxEnd _ _ _ _ _ _ hmax hms hbound
    rw [List.append_nil]
    exact ⟨hmax, by simp [scanStreak, hms], fun a b h => by simpa [scanStreak] using hbound a b h⟩
  | cons x xs ih =>
    intro p prev curStart cur maxS maxStart maxEnd hpw hprev hple hrun hgap hcur hmax hms hbound
    have hassoc : p ++ x :: xs = (p ++ [x]) ++ xs := by simp
    have hpw' : ((p ++ [x]) ++ xs).Pairwise (· < ·) := by rw [← hassoc]; exact hpw
    have hcross := (List.pairwise_append.mp hpw).2.2
    have hplt : ∀ z, z ∈ p → z < x := fun z hz => hcross z hz x (List.mem_cons_self x xs)
    have hprevx : prev < x := hplt prev hprev
    have hmemx : x ∈ p ++ [x] := by simp
    have hmem' : ∀ z, z ∈ p → z ∈ p ++ [x] := fun z hz => by simp [hz]
    have hsplit : ∀ z, z ∈ p ++ [x] → z ∈ p ∨ z = x := by
      intro z hz
      rcases List.mem_append.mp hz with h | h
      · exact Or.inl h
      · exact Or.inr (List.mem_singleton.mp h)
    have hle' : ∀ z, z ∈ p ++ [x] → z ≤ x := by
      intro z hz
      rcases hsplit z hz with h | rfl
      · exact le_of_lt (hplt z h)
      · exact le_refl z
    have hcsle : curStart ≤ prev := hrun.1
    have hmaxse : maxStart ≤ maxEnd := hmax.1
    by_cases hcons : x - prev = 1
    · -- consecutive day: the current run extends to x
      have hrun' : isRun (p ++ [x]) curStart x := by
        refine ⟨by omega, ?_⟩
        intro d h1 h2
        by_cases hd : d ≤ prev
        · exact hmem' d (hrun.2 d h1 hd)
        · have : d = x := by omega
          subst this; exact hmemx
      have hgap' : (curStart - 1) ∉ p ++ [x] := by
        intro hc
        rcases hsplit _ hc with h | h
        · exact hgap h
        · omega
      -- maximality transfer: any run in p ++ [x] is bounded
      have hkey : ∀ a b, isRun (p ++ [x]) a b → b - a + 1 ≤ max maxS (cur + 1) := by
        intro a b hab
        have hbmem : b ∈ p ++ [x] := hab.2 b hab.1 (le_refl b)
        have hblex : b ≤ x := hle' b hbmem
        by_cases hbx : b = x
        · have hacs : curStart ≤ a := by
            by_contra hcon
            push_neg at hcon
            have : (curStart - 1) ∈ p ++ [x] := hab.2 (curStart - 1) (by omega) (by omega)
            exact hgap' this
          have : b - a + 1 ≤ cur + 1 := by omega
          omega
        · have hrinp : isRun p a b := by
            refine ⟨hab.1, ?_⟩
            intro d h1 h2
            have hd : d ∈ p ++ [x] := hab.2 d h1 h2
            rcases hsplit d hd with h | rfl
            · exact h
            · omega
          have := hbound a b hrinp
          omega
      by_cases hbig : cur + 1 > maxS
      · have heval : scanStreak (x :: xs) prev curStart cur maxS maxStart maxEnd
            = scanStreak xs x curStart (cur + 1) (cur + 1) curStart x := by
          simp [scanStreak, hcons, hbig]
        rw [heval, hassoc]
        exact ih (p ++ [x]) x curStart (cur + 1) (cur + 1) curStart x hpw' hmemx hle'
          hrun' hgap' (by omega) hrun' (by omega)
          (fun a b hab => by have := hkey a b hab; omega)
      · have heval : scanStreak (x :: xs) prev curStart cur maxS maxStart maxEnd
            = scanStreak xs x curStart (cur + 1) maxS maxStart maxEnd := by
          simp [scanStreak, hcons, hbig]
        rw [heval, hassoc]
        exact ih (p ++ [x]) x curStart (cur + 1) maxS maxStart maxEnd hpw' hmemx hle'
          hrun' hgap' (by omega) (isRun_superset hmem' hmax) hms
          (fun a b hab => by have := hkey a b hab; omega)
    · -- gap: the current run restarts at x
      have hxg : prev + 1 < x := by omega
      have hrun' : isRun (p ++ [x]) x x := isRun_one hmemx
      have hgap' : (x - 1) ∉ p ++ [x] := by
        intro hc
        rcases hsplit _ hc with h | h
        · have := hple _ h; omega
        · omega
      have hkey : ∀ a b, isRun (p ++ [x]) a b → b - a + 1 ≤ maxS := by
        intro a b hab
        have hbmem : b ∈ p ++ [x] := hab.2 b hab.1 (le_refl b)
        have hblex : b ≤ x := hle' b hbmem
        by_cases hbx : b = x
        · have hax : a = x := by
            by_contra hcon
            have hax' : a < x := by
              rcases lt_or_eq_of_le hab.1 with h | h
              · omega
              · exact absurd (h.trans hbx) hcon
            have : (x - 1) ∈ p ++ [x] := hab.2 (x - 1) (by omega) (by omega)
            exact hgap' this
          omega
        · have hrinp : isRun p a b := by
            refine ⟨hab.1, ?_⟩
            intro d h1 h2
            have hd : d ∈ p ++ [x] := hab.2 d h1 h2
            rcases hsplit d hd with h | rfl
            · exact h
            · omega
          exact hbound a b hrinp
      have heval : scanStreak (x :: xs) prev curStart cur maxS maxStart maxEnd
          = scanStreak xs x x 1 maxS maxStart maxEnd := by
        simp [scanStreak, hcons]
      rw [heval, hassoc]
      exact ih (p ++ [x]) x x 1 maxS maxStart maxEnd hpw' hmemx hle'
        hrun' hgap' (by omega) (isRun_superset hmem' hmax) hms hkey

theorem calculateStreak_spec (entries : List Entry) (h : entries ≠ []) :
    ∃ s e, (calculateStreak entries).startDate = some s ∧
      (calculateStreak entries).endDate = some e ∧
      isRun (sortedUnique (entries.map Entry.day)) s e ∧
      (calculateStreak entries).length = e - s + 1 ∧
      ∀ a b, isRun (sortedUnique (entries.map Entry.day)) a b
        → b - a + 1 ≤ (calculateStreak entries).length := by
  obtain ⟨e0, rest0, rfl⟩ := List.exists_cons_of_ne_nil h
  have hmem : e0.day ∈ sortedUnique ((e0 :: rest0).map Entry.day) := by
    rw [sortedUnique_mem]
    simp
  obtain ⟨d, rest, heq⟩ := List.exists_cons_of_ne_nil (List.ne_nil_of_mem hmem)
  have hpw : (d :: rest).Pairwise (· < ·) := by
    rw [← heq]; exact sortedUnique_pairwise _
  have hcalc : calculateStreak (e0 :: rest0)
      = { length := (scanStreak rest d d 1 1 d d).1,
          startDate := some (scanStreak rest d d 1 1 d d).2.1,
          endDate := some (scanStreak rest d d 1 1 d d).2.2 } := by
    unfold calculateStreak
    rw [heq]
  have hone : ∀ a b, isRun [d] a b → b - a + 1 ≤ 1 := by
    intro a b hab
    have ha : a ∈ [d] := hab.2 a (le_refl a) hab.1
    have hb : b ∈ [d] := hab.2 b hab.1 (le_refl b)
    simp at ha hb
    omega
  have hspec := scanStreak_spec rest [d] d d 1 1 d d
    (by rw [List.singleton_append, ← heq]; exact sortedUnique_pairwise _)
    (List.mem_singleton_self d)
    (by intro z hz; simp at hz; omega)
    (isRun_one (List.mem_singleton_self d))
    (by intro hc; rw [List.mem_singleton] at hc; omega)
    (by omega)
    (isRun_one (List.mem_singleton_self d))
    (by omega)
    hone
  rw [List.singleton_append, ← heq] at hspec
  refine ⟨(scanStreak rest d d 1 1 d d).2.1, (scanStreak rest d d 1 1 d d).2.2, ?_, ?_, ?_, ?_, ?_⟩
  · rw [hcalc]
  · rw [hcalc]
  · exact hspec.1
  · rw [hcalc]; exact hspec.2.1
  · intro a b hab
    rw [hcalc]
    exact hspec.2.2 a b hab

theorem run_length_le_length {S : List Int} {a b : Int} (h : isRun S a b) :
    b - a + 1 ≤ (S.length : Int) := by
  have hsub : Finset.Icc a b ⊆ S.toFinset := by
    intro d hd
    rw [Finset.mem_Icc] at hd
    rw [List.mem_toFinset]
    exact h.2 d hd.1 hd.2
  have hcard := Finset.card_le_card hsub
  rw [Int.card_Icc] at hcard
  have hlen := List.toFinset_card_le S
  omega

theorem noRawB_escapeXml (s : List Char) : noRawB (escapeXml s) = true := by
  induction s with
  | nil => decide
  | cons c rest ih =>
    show noRawB (escapeChar c ++ escapeXml rest) = true
    unfold noRawB at ih ⊢
    rw [List.all_append]
    refine (Bool.and_eq_true _ _).mpr ⟨?_, ih⟩
    unfold escapeChar
    by_cases h1 : c = ('<')
    · simp [h1]
    · by_cases h2 : c = ('>')
      · simp [h1, h2]
      · by_cases h3 : c = ('&')
        · simp [h1, h2, h3]
        · by_cases h4 : c = Char.ofNat 39
          · simp [h1, h2, h3, h4]
          · by_cases h5 : c = Char.ofNat 34
            · simp [h1, h2, h3, h4, h5]
            · simp [h1, h2, h3, h4, h5]

theorem ampOkB_escapeXml (s : List Char) : ampOkB (escapeXml s) = true := by
  induction s with
  | nil => decide
  | cons c rest ih =>
    show ampOkB (escapeChar c ++ escapeXml rest) = true
    unfold escapeChar
    by_cases h1 : c = ('<')
    · simp only [h1, if_true]
      show ampOkB ('&' :: 'l' :: 't' :: ';' :: escapeXml rest) = true
      simp [ampOkB, entityList, List.isPrefixOf, ih]
    · by_cases h2 : c = ('>')
      · simp only [h1, h2, if_false, if_true]
        show ampOkB ('&' :: 'g' :: 't' :: ';' :: escapeXml rest) = true
        simp [ampOkB, entityList, List.isPrefixOf, ih]
      · by_cases h3 : c = ('&')
        · simp only [h1, h2, h3, if_false, if_true]
          show ampOkB ('&' :: 'a' :: 'm' :: 'p' :: ';' :: escapeXml rest) = true
          simp [ampOkB, entityList, List.isPrefixOf, ih]
        · by_cases h4 : c = Char.ofNat 39
          · simp only [h1, h2, h3, h4, if_false, if_true]
            show ampOkB ('&' :: 'a' :: 'p' :: 'o' :: 's' :: ';' :: escapeXml rest) = true
            simp [ampOkB, entityList, List.isPrefixOf, ih]
          · by_cases h5 : c = Char.ofNat 34
            · simp only [h1, h2, h3, h4, h5, if_false, if_true]
              show ampOkB ('&' :: 'q' :: 'u' :: 'o' :: 't' :: ';' :: escapeXml rest) = true
              simp [ampOkB, entityList, List.isPrefixOf, ih]
            · simp only [h1, h2, h3, h4, h5, if_false]
              show ampOkB (c :: escapeXml rest) = true
              simp [ampOkB, h3, ih]

theorem entryOfRecord_eq (sel : Option Int) (r : RawRecord)
    (h1 : r.type = ("episode") → r.episode.isSome ∧ r.showInfo.isSome)
    (h2 : r.type = ("movie") → r.movie.isSome) :
    entryOfRecord sel r = Except.ok (normalizedEntry sel r) := by
  unfold entryOfRecord normalizedEntry
  cases hw : r.watched_at with
  | none => rfl
  | some d =>
    dsimp only
    by_cases hy : some (yearOfDay d) = sel
    · rw [if_pos hy, if_pos hy]
      by_cases he : r.type = ("episode")
      · obtain ⟨hep, hsh⟩ := h1 he
        obtain ⟨ep, hepv⟩ := Option.isSome_iff_exists.mp hep
        obtain ⟨sh, hshv⟩ := Option.isSome_iff_exists.mp hsh
        rw [if_pos he, if_pos he, hepv, hshv]
      · rw [if_neg he, if_neg he]
        by_cases hm : r.type = ("movie")
        · obtain ⟨mv, hmv⟩ := Option.isSome_iff_exists.mp (h2 hm)
          rw [if_pos hm, if_pos hm, hmv]
        · rw [if_neg hm, if_neg hm]
    · rw [if_neg hy, if_neg hy]

theorem processEntries_eq (sel : Option Int) :
    ∀ l : List RawRecord,
      (∀ r ∈ l, (r.type = ("episode") → r.episode.isSome ∧ r.showInfo.isSome) ∧
        (r.type = ("movie") → r.movie.isSome)) →
      processEntries sel l = Except.ok (l.filterMap (normalizedEntry sel)) := by
  intro l
  induction l with
  | nil => intro _; rfl
  | cons r rest ih =>
    intro hwf
    have hr := hwf r (List.mem_cons_self r rest)
    have hrec := ih (fun x hx => hwf x (List.mem_cons_of_mem r hx))
    show (match entryOfRecord sel r with
      | Except.error e => Except.error e
      | Except.ok none => processEntries sel rest
      | Except.ok (some en) => (processEntries sel rest).map (fun l => en :: l))
      = Except.ok ((r :: rest).filterMap (normalizedEntry sel))
    rw [entryOfRecord_eq sel r hr.1 hr.2, List.filterMap_cons]
    cases hne : normalizedEntry sel r with
    | none => simpa using hrec
    | some en => rw [hrec]; rfl

theorem normalizedEntry_shape (sel : Option Int) (r : RawRecord) (e : Entry)
    (h : normalizedEntry sel r = some e) :
    sel = some (yearOfDay e.day) ∧ (e.type = ("episode") ∨ e.type = ("movie")) := by
  unfold normalizedEntry at h
  cases hw : r.watched_at with
  | none => rw [hw] at h; exact absurd h (by simp)
  | some d =>
    rw [hw] at h
    dsimp only at h
    by_cases hy : some (yearOfDay d) = sel
    · rw [if_pos hy] at h
      by_cases he : r.type = ("episode")
      · rw [if_pos he] at h
        cases hep : r.episode with
        | none =>
          rw [hep] at h
          cases hsh : r.showInfo with
          | none => rw [hsh] at h; exact absurd h (by simp)
          | some sh => rw [hsh] at h; exact absurd h (by simp)
        | some ep =>
          rw [hep] at h
          cases hsh : r.showInfo with
          | none => rw [hsh] at h; exact absurd h (by simp)
          | some sh =>
            rw [hsh] at h
            injection h with h
            subst h
            exact ⟨hy.symm, Or.inl rfl⟩
      · rw [if_neg he] at h
        by_cases hm : r.type = ("movie")
        · rw [if_pos hm] at h
          cases hmv : r.movie with
          | none => rw [hmv] at h; exact absurd h (by simp)
          | some mv =>
            rw [hmv] at h
            injection h with h
            subst h
            exact ⟨hy.symm, Or.inr rfl⟩
        · rw [if_neg hm] at h; exact absurd h (by simp)
    · rw [if_neg hy] at h; exact absurd h (by simp)

theorem normalizedEntry_dropped (sel : Option Int) (r : RawRecord)
    (h : r.watched_at = none ∨ (r.type ≠ ("episode") ∧ r.type ≠ ("movie"))) :
    normalizedEntry sel r = none := by
  unfold normalizedEntry
  cases hw : r.watched_at with
  | none => rfl
  | some d =>
    dsimp only
    rcases h with h | ⟨he, hm⟩
    · rw [hw] at h; exact absurd h (by simp)
    · by_cases hy : some (yearOfDay d) = sel
      · rw [if_pos hy, if_neg he, if_neg hm]
      · rw [if_neg hy]

theorem ceil_ratio_eq (c m : Nat) (hm : m ≠ 0) :
    ⌈((4 * c : ℚ)) / (m : ℚ)⌉ = ((4 * c + m - 1) / m : ℕ) := by
  have hm0 : (0 : ℚ) < (m : ℚ) := by exact_mod_cast Nat.pos_of_ne_zero hm
  have hq2 : 4*c ≤ m * ((4*c + m - 1)/m) := by
    have key := Nat.div_add_mod (4*c + m - 1) m
    have hr : (4*c + m - 1) % m < m := Nat.mod_lt _ (Nat.pos_of_ne_zero hm)
    generalize hP : m * ((4*c + m - 1)/m) = P at key ⊢
    omega
  have hq3 : m * ((4*c + m - 1)/m) < 4*c + m := by
    have key := Nat.div_add_mod (4*c + m - 1) m
    generalize hP : m * ((4*c + m - 1)/m) = P at key ⊢
    omega
  generalize hgen : (4*c + m - 1)/m = q at hq2 hq3 ⊢
  have hcast2 : (4*(c:ℚ)) ≤ (m:ℚ) * (q:ℚ) := by exact_mod_cast hq2
  have hcast3 : ((m:ℚ) * (q:ℚ)) < 4*(c:ℚ) + (m:ℚ) := by exact_mod_cast hq3
  rw [Int.ceil_eq_iff]
  constructor
  · rw [lt_div_iff₀ hm0]
    push_cast
    linarith
  · rw [div_le_iff₀ hm0]
    push_cast
    linarith

theorem gridSum_zero (year : Int) (ws : String) :
    gridSum year ws (fun _ _ => 0) = 0 := by
  simp [gridSum]

theorem bump_sum (year : Int) (ws : String) (g : Int → Int → Nat) (i j : Int)
    (hi : 0 ≤ i ∧ i ≤ 6) (hj : 0 ≤ j ∧ j ≤ totalWeeksOf year ws - 1) :
    gridSum year ws (bump g i j) = gridSum year ws g + 1 := by
  unfold gridSum bump
  have hstep : ∀ a b : Int, (if a = i ∧ b = j then g a b + 1 else g a b)
      = g a b + (if a = i ∧ b = j then 1 else 0) := by
    intro a b; split <;> simp
  simp only [hstep, Finset.sum_add_distrib]
  have hinner : ∀ a : Int,
      (∑ b ∈ Finset.Icc (0:ℤ) (totalWeeksOf year ws - 1), (if a = i ∧ b = j then (1:ℕ) else 0))
        = if a = i then 1 else 0 := by
    intro a
    by_cases ha : a = i
    · simp only [ha, true_and, if_true]
      rw [Finset.sum_ite_eq' (Finset.Icc (0:ℤ) (totalWeeksOf year ws - 1)) j (fun _ => (1:ℕ))]
      rw [if_pos (Finset.mem_Icc.mpr ⟨hj.1, hj.2⟩)]
    · simp [ha]
  simp only [hinner]
  rw [Finset.sum_ite_eq' (Finset.Icc (0:ℤ) 6) i (fun _ => (1:ℕ))]
  rw [if_pos (Finset.mem_Icc.mpr ⟨hi.1, hi.2⟩)]

theorem gridSum_foldl (year : Int) (ws : String) :
    ∀ (l : List Entry) (gm : (Int → Int → Nat) × Nat),
      gridSum year ws (l.foldl (gridStep year ws) gm).1
        = gridSum year ws gm.1
          + l.countP (fun e => decide (0 ≤ weekIndexOf year ws e.day ∧
              weekIndexOf year ws e.day < totalWeeksOf year ws)) := by
  intro l
  induction l with
  | nil => intro gm; simp
  | cons e l ih =>
    intro gm
    rw [List.foldl_cons, ih, List.countP_cons]
    by_cases hc : 0 ≤ weekIndexOf year ws e.day ∧
        weekIndexOf year ws e.day < totalWeeksOf year ws
    · have h1 : (gridStep year ws gm e).1
          = bump gm.1 (dayIndexOf ws e.day) (weekIndexOf year ws e.day) := by
        unfold gridStep
        dsimp only
        rw [if_pos hc]
      have hd := dayIndexOf_mem ws e.day
      rw [h1, bump_sum year ws gm.1 _ _ (by omega) (by omega)]
      simp [hc]
      omega
    · have h1 : (gridStep year ws gm e).1 = gm.1 := by
        unfold gridStep
        dsimp only
        rw [if_neg hc]
      rw [h1]
      simp [hc]

theorem inRange_of_year (year : Int) (ws : String) (d : Int) (h : yearOfDay d = year) :
    0 ≤ weekIndexOf year ws d ∧ weekIndexOf year ws d < totalWeeksOf year ws := by
  have hiv := (yearOfDay_eq_iff d year).mp h
  have hs := startDateOf_le_jan1 year ws
  have hd := dec31_lt_jan1_succ year
  unfold weekIndexOf totalWeeksOf totalDaysOf
  omega

theorem yearPred_eq_intervalPred (year : Int) :
    (fun e : Entry => yearOfDay e.day == year)
      = (fun e : Entry => decide (jan1 year ≤ e.day ∧ e.day ≤ dec31 year)) := by
  funext e
  by_cases h : yearOfDay e.day = year
  · have hiv := (yearOfDay_eq_iff e.day year).mp h
    simp [h, hiv]
  · have hiv : ¬(jan1 year ≤ e.day ∧ e.day ≤ dec31 year) :=
      fun hcon => h ((yearOfDay_eq_iff _ _).mpr hcon)
    simp [h, hiv]

/-- C1: for every entry list and configuration (year, week start), the
sum of all cells of the 7-row, `totalWeeks`-column activity grid built
inside `generateSvg` equals the number of input entries whose date
falls within January 1 through December 31 of the target year. -/
theorem generateSvg_grid_sum (entries : List Entry) (year : Int) (ws : String) :
    gridSum year ws (buildGrid year ws (sortedEntriesOf entries year))
      = entries.countP (fun e => decide (jan1 year ≤ e.day ∧ e.day ≤ dec31 year)) := by
  unfold buildGrid buildGridMax sortedEntriesOf
  rw [gridSum_foldl]
  have h0 : gridSum year ws ((fun _ _ => 0, 0) : (Int → Int → Nat) × Nat).1 = 0 :=
    gridSum_zero year ws
  rw [h0]
  have hall : ∀ e ∈ (entries.filter (fun e => yearOfDay e.day == year)).mergeSort
      (fun a b => a.day ≤ b.day),
      (fun e => decide (0 ≤ weekIndexOf year ws e.day ∧
        weekIndexOf year ws e.day < totalWeeksOf year ws)) e = true := by
    intro e he
    have hmem := List.mem_mergeSort.mp he
    have hy : yearOfDay e.day = year := by
      have := (List.mem_filter.mp hmem).2
      simpa using this
    simpa using inRange_of_year year ws e.day hy
  rw [List.countP_eq_length.mpr hall, List.length_mergeSort]
  rw [← List.countP_eq_length_filter, yearPred_eq_intervalPred]
  omega

theorem buildGrid_outside_row (year : Int) (ws : String) (i : Int) (hi : i < 0 ∨ 6 < i) :
    ∀ (l : List Entry) (gm : (Int → Int → Nat) × Nat),
      (∀ j, gm.1 i j = 0) → ∀ j, ((l.foldl (gridStep year ws) gm).1) i j = 0 := by
  intro l
  induction l with
  | nil => intro gm h j; exact h j
  | cons e l ih =>
    intro gm h j
    rw [List.foldl_cons]
    apply ih
    intro j'
    unfold gridStep
    dsimp only
    split
    · show bump gm.1 (dayIndexOf ws e.day) (weekIndexOf year ws e.day) i j' = 0
      unfold bump
      have hd := dayIndexOf_mem ws e.day
      rw [if_neg]
      · exact h j'
      · rintro ⟨h1, _⟩
        omega
    · exact h j'

/-- C10: in the grid-accumulation loops of `generateSvg` and
`generateMultiYearSvg`, the computed `dayIndex` always lies in `0..6`
for both week-start conventions (remapping `d ∈ 0..6` by `(d+6) % 7`
stays in `0..6`), so once the `weekIndex` range check passes the write
`grid[dayIndex][weekIndex]` is within the 7-row grid's bounds even
though only `weekIndex` is checked: no row outside `0..6` is ever
touched. -/
theorem gridWrite_safe :
    ∀ (ws : String) (d : Int), (0 ≤ dayIndexOf ws d ∧ dayIndexOf ws d < 7) ∧
      ∀ (year : Int) (entries : List Entry) (i j : Int), (i < 0 ∨ 6 < i) →
        buildGrid year ws entries i j = 0 := by
  intro ws d
  refine ⟨dayIndexOf_mem ws d, ?_⟩
  intro year entries i j hi
  unfold buildGrid buildGridMax
  exact buildGrid_outside_row year ws i hi entries ((fun _ _ => 0, 0)) (fun _ => rfl) j

/-- Witness for `gridWrite_safe` at a concrete configuration. -/
theorem gridWrite_safe_witness :
    (0 ≤ dayIndexOf ("sunday") 3 ∧ dayIndexOf ("sunday") 3 < 7) ∧
      buildGrid 2024 ("sunday") [] 7 0 = 0 :=
  ⟨(gridWrite_safe ("sunday") 3).1,
    (gridWrite_safe ("sunday") 3).2 2024 [] 7 0 (by decide)⟩

/-- C3: `calculateStreak` dedupes entries to unique local days, sorts
them ascending, and returns the maximal run of consecutive days (day
delta exactly 1) with its start and end dates; on `[]` it returns
`{length: 0, startDate: null, endDate: null}`, and on entries covering
exactly 2024-01-01, 2024-01-02, 2024-01-03, 2024-01-05 it returns
`{length: 3, startDate: "2024-01-01", endDate: "2024-01-03"}`. -/
theorem calculateStreak_correct :
    (calculateStreak [] = { length := 0, startDate := none, endDate := none }) ∧
    (calculateStreak exampleStreakEntries
      = { length := 3, startDate := some (daysFromCivil 2024 1 1),
          endDate := some (daysFromCivil 2024 1 3) }) ∧
    ((calculateStreak exampleStreakEntries).startDate.map dateString = some ("2024-01-01")) ∧
    ((calculateStreak exampleStreakEntries).endDate.map dateString = some ("2024-01-03")) ∧
    (∀ entries : List Entry, entries ≠ [] →
      ∃ s e, (calculateStreak entries).startDate = some s ∧
        (calculateStreak entries).endDate = some e ∧
        isRun (sortedUnique (entries.map Entry.day)) s e ∧
        (calculateStreak entries).length = e - s + 1 ∧
        ∀ a b, isRun (sortedUnique (entries.map Entry.day)) a b
          → b - a + 1 ≤ (calculateStreak entries).length) :=
  ⟨rfl, by decide, by decide, by decide, calculateStreak_spec⟩

/-- Witness for `calculateStreak_correct` at the concrete four-day
entry list. -/
theorem calculateStreak_correct_witness :
    ∃ s e, (calculateStreak exampleStreakEntries).startDate = some s ∧
      (calculateStreak exampleStreakEntries).endDate = some e ∧
      isRun (sortedUnique (exampleStreakEntries.map Entry.day)) s e ∧
      (calculateStreak exampleStreakEntries).length = e - s + 1 ∧
      ∀ a b, isRun (sortedUnique (exampleStreakEntries.map Entry.day)) a b
        → b - a + 1 ≤ (calculateStreak exampleStreakEntries).length :=
  calculateStreak_correct.2.2.2.2 exampleStreakEntries (by decide)

/-- C9: for every non-empty entry list the streak result satisfies
`length ≥ 1`, has non-null boundary dates with `startDate ≤ endDate`,
the day difference between the boundaries is `length - 1`, and
`length ≤ calculateDaysActive` of the same entries. -/
theorem streakResult_invariants (entries : List Entry) (h : entries ≠ []) :
    1 ≤ (calculateStreak entries).length ∧
    ∃ s e, (calculateStreak entries).startDate = some s ∧
      (calculateStreak entries).endDate = some e ∧ s ≤ e ∧
      e - s = (calculateStreak entries).length - 1 ∧
      (calculateStreak entries).length ≤ calculateDaysActive entries := by
  obtain ⟨s, e, hs, he, hrun, hlen, _⟩ := calculateStreak_spec entries h
  have hse := hrun.1
  have hle := run_length_le_length hrun
  refine ⟨by omega, s, e, hs, he, hse, by omega, ?_⟩
  unfold calculateDaysActive
  omega

/-- Witness for `streakResult_invariants` at the concrete four-day
entry list. -/
theorem streakResult_invariants_witness :
    1 ≤ (calculateStreak exampleStreakEntries).length ∧
    ∃ s e, (calculateStreak exampleStreakEntries).startDate = some s ∧
      (calculateStreak exampleStreakEntries).endDate = some e ∧ s ≤ e ∧
      e - s = (calculateStreak exampleStreakEntries).length - 1 ∧
      (calculateStreak exampleStreakEntries).length ≤ calculateDaysActive exampleStreakEntries :=
  streakResult_invariants exampleStreakEntries (by decide)

/-- C4: both color schemes return a level in `0..4` and level `0` for
count `0`; the percentile scheme returns `1/2/3/4` according to
`count ≤ p25 / ≤ p50 / ≤ p75 / greater` (the `p90` branch is
redundant: everything above `p75` already saturates at `4`); the
linear scheme returns `0` iff `count = 0` or `maxCount = 0` and
otherwise `min(ceil(count/maxCount*4), 4)`. -/
theorem colorBucket_spec :
    (∀ (c : Int) (s : DayCountStats), calculateColorIntensity c s ≤ 4) ∧
    (∀ s : DayCountStats, calculateColorIntensity 0 s = 0) ∧
    (∀ m : Nat, getColorLevel 0 m = 0) ∧
    (∀ c : Nat, getColorLevel c 0 = 0) ∧
    (∀ c m : Nat, getColorLevel c m ≤ 4) ∧
    (∀ (c : Int) (s : DayCountStats), c ≠ 0 →
      calculateColorIntensity c s
        = if c ≤ s.p25 then 1 else if c ≤ s.p50 then 2 else if c ≤ s.p75 then 3 else 4) ∧
    (∀ c m : Nat, c ≠ 0 → m ≠ 0 →
      ((getColorLevel c m : Int) = min ⌈((4 * c : ℚ)) / (m : ℚ)⌉ 4 ∧ 1 ≤ getColorLevel c m)) := by
  refine ⟨?_, ?_, ?_, ?_, ?_, ?_, ?_⟩
  · intro c s
    unfold calculateColorIntensity
    split_ifs <;> omega
  · intro s; rfl
  · intro m; rfl
  · intro c
    unfold getColorLevel
    split_ifs <;> omega
  · intro c m
    unfold getColorLevel
    split_ifs <;> omega
  · intro c s hc
    unfold calculateColorIntensity
    rw [if_neg hc]
    split_ifs <;> rfl
  · intro c m hc hm
    unfold getColorLevel
    rw [if_neg hc, if_neg hm]
    constructor
    · rw [ceil_ratio_eq c m hm]
      push_cast
      rfl
    · have h1 : 1 ≤ (4 * c + m - 1) / m :=
        (Nat.one_le_div_iff (Nat.pos_of_ne_zero hm)).mpr (by omega)
      omega

/-- Witness for `colorBucket_spec` at concrete counts. -/
theorem colorBucket_witness :
    (calculateColorIntensity 5 { p25 := 3, p50 := 6, p75 := 9, p90 := 12 }
      = if (5:Int) ≤ (3:Int) then 1 else if (5:Int) ≤ (6:Int) then 2
        else if (5:Int) ≤ (9:Int) then 3 else 4) ∧
    ((getColorLevel 3 8 : Int) = min ⌈((4 * (3:ℕ) : ℚ)) / ((8:ℕ) : ℚ)⌉ 4 ∧
      1 ≤ getColorLevel 3 8) :=
  ⟨colorBucket_spec.2.2.2.2.2.1 5 { p25 := 3, p50 := 6, p75 := 9, p90 := 12 } (by decide),
    colorBucket_spec.2.2.2.2.2.2 3 8 (by decide) (by decide)⟩

/-- C5: `escapeXml` replaces every occurrence of the five reserved
characters: its output contains no raw `<`, `>`, apostrophe or double
quote, and every `&` in the output is the first character of one of
the escape entities the function introduces. -/
theorem escapeXml_escapes (s : List Char) :
    noRawB (escapeXml s) = true ∧ ampOkB (escapeXml s) = true :=
  ⟨noRawB_escapeXml s, ampOkB_escapeXml s⟩

/-- C6: on well-formed raw history (kind-specific nested objects
present, per the external interface), `processTraktHistory` returns
without raising for every history list and selected year; records with
an unparseable date or an unrecognized kind are absent from the result,
and every returned entry's local calendar year equals the selected
year. -/
theorem processTraktHistory_ok (history : List RawRecord) (targetYear : Option Int)
    (currentYear : Int) (hwf : WfHistory history) :
    processTraktHistory history targetYear currentYear
      = Except.ok
          { entries := history.filterMap
              (normalizedEntry (selectedYearOf history targetYear currentYear)),
            year := selectedYearOf history targetYear currentYear,
            totalItemsWatched := ((history.filterMap
              (normalizedEntry (selectedYearOf history targetYear currentYear))).length : Int),
            moviesCount := (((history.filterMap
              (normalizedEntry (selectedYearOf history targetYear currentYear))).filter
                (fun e => e.type == ("movie"))).length : Int),
            episodesCount := (((history.filterMap
              (normalizedEntry (selectedYearOf history targetYear currentYear))).filter
                (fun e => e.type == ("episode"))).length : Int) } ∧
      (∀ r ∈ history, (r.watched_at = none ∨ (r.type ≠ ("episode") ∧ r.type ≠ ("movie"))) →
        normalizedEntry (selectedYearOf history targetYear currentYear) r = none) ∧
      (∀ e ∈ history.filterMap (normalizedEntry (selectedYearOf history targetYear currentYear)),
        selectedYearOf history targetYear currentYear = some (yearOfDay e.day) ∧
          (e.type = ("episode") ∨ e.type = ("movie"))) := by
  refine ⟨?_, ?_, ?_⟩
  · unfold processTraktHistory
    dsimp only
    rw [processEntries_eq _ history hwf]
    rfl
  · intro r _ hcase
    exact normalizedEntry_dropped _ r hcase
  · intro e he
    rw [List.mem_filterMap] at he
    obtain ⟨r, _, hnorm⟩ := he
    exact normalizedEntry_shape _ r e hnorm

/-- Witness for `processTraktHistory_ok` on a concrete history mixing
a good movie, an unparseable date, and an unknown kind. -/
theorem processTraktHistory_ok_witness :
    ∃ res, processTraktHistory sampleHistory (some 2024) 2025 = Except.ok res ∧
      res.entries.length = 1 := by
  have h := processTraktHistory_ok sampleHistory (some 2024) 2025 (by unfold WfHistory; decide)
  exact ⟨_, h.1, by decide⟩

/-- C7: rendering is deterministic.  `generateSvg` is a pure function
of the entry list, the option set, and the process-wide font state;
the only ambient input it reads is the clock, and that only to default
the display year.  With an explicit year in the options, two
invocations at different clock readings produce byte-identical output:
no timestamp, random identifier, or other nondeterministic data is
embedded in the document. -/
theorem generateSvg_deterministic (entries : List Entry) (o : SvgOptions)
    (fonts : Fonts) (y : Int) (h : o.year = some y) (n1 n2 : Int) :
    generateSvg entries o fonts n1 = generateSvg entries o fonts n2 := by
  unfold generateSvg yearUsed
  rw [h]

/-- Witness for `generateSvg_deterministic` at a concrete option set
with an explicit year and two different clock readings. -/
theorem generateSvg_deterministic_witness :
    generateSvg [] { year := some 2024 } ⟨none, none, none, none⟩ 0
      = generateSvg [] { year := some 2024 } ⟨none, none, none, none⟩ 999999 :=
  generateSvg_deterministic [] { year := some 2024 } ⟨none, none, none, none⟩
    2024 rfl 0 999999

/-- C8, counterexample: in fetcher.js's `generateSvg` a grid cell whose
date falls outside the display year produces no markup at all — the
loop `continue`s before emitting anything — so the rendered document
does not contain a cell rectangle with zero opacity for it, contrary to
the claim.  Concretely, for year 2024 with Sunday week start the cell
at row 0, column 0 is 2023-12-31, its emitted fragment is the empty
string, and in particular no `<rect` element exists in it. -/
theorem outsideCell_no_rect :
    fetcherCellFragment outsideCellCtx 0 0 = ("") ∧
    (startDateOf 2024 ("sunday") + 0 * 7 + 0 < jan1 2024) ∧
    ¬ ∃ pre post : String,
      fetcherCellFragment outsideCellCtx 0 0 = pre ++ "<rect" ++ post := by
  refine ⟨by decide, by decide, ?_⟩
  rintro ⟨pre, post, heq⟩
  have h0 : fetcherCellFragment outsideCellCtx 0 0 = ("") := by decide
  rw [h0] at heq
  have hlen := congrArg String.length heq
  rw [String.length_append, String.length_append] at hlen
  have h5 : ("<rect").length = 5 := by decide
  have hz : ("" : String).length = 0 := by decide
  omega

/-- C8, amended: a grid cell dated outside the display year still
occupies its row and column of the matrix in both renderers, but the
two renderers exclude it from display differently: the standalone
script emits its rectangle with `opacity="0"`, while fetcher.js's
`generateSvg` emits no rectangle for it at all. -/
theorem outsideCell_behavior (ctx : CellCtx) (day week : Int)
    (hout : startDateOf ctx.year ctx.weekStart + week * 7 + day < jan1 ctx.year ∨
      dec31 ctx.year < startDateOf ctx.year ctx.weekStart + week * 7 + day) :
    fetcherCellFragment ctx day week = ("") ∧
    standaloneCellOpacity (startDateOf ctx.year ctx.weekStart + week * 7 + day)
      ctx.year = ("0") ∧
    ∀ (x y : Int) (color : String) (count : Nat),
      standaloneCellRect (startDateOf ctx.year ctx.weekStart + week * 7 + day)
          ctx.year x y color count
        = "\n        <rect x=\"" ++ toString x ++ "\" y=\"" ++ toString y ++
          "\" width=\"11\" height=\"11\" rx=\"2\" ry=\"2\" fill=\"" ++ color ++
          "\" opacity=\"" ++ "0" ++
          "\" data-date=\"" ++
          dateString (startDateOf ctx.year ctx.weekStart + week * 7 + day) ++
          "\" data-count=\"" ++ toString count ++ "\"/>" := by
  refine ⟨?_, ?_, ?_⟩
  · unfold fetcherCellFragment
    dsimp only
    rw [if_pos hout]
  · unfold standaloneCellOpacity
    rw [if_pos hout]
  · intro x y color count
    unfold standaloneCellRect standaloneCellOpacity
    rw [if_pos hout]

/-- Witness for `outsideCell_behavior` at the 2023-12-31 cell of a
2024 Sunday-start grid. -/
theorem outsideCell_behavior_witness :
    fetcherCellFragment outsideCellCtx 0 0 = ("") ∧
    standaloneCellOpacity (startDateOf 2024 ("sunday") + 0 * 7 + 0) 2024 = ("0") :=
  ⟨(outsideCell_behavior outsideCellCtx 0 0 (by decide)).1,
    (outsideCell_behavior outsideCellCtx 0 0 (by decide)).2.1⟩

end TraktGraph
